import Mathlib

/-!
CNN headline scraper: extraction and navigation.

A shallow embedding of the four scraper scripts `Save_headlines.js`, `copy.js`,
`more_top_stories.js` and `cnn_scraper.js`.

* The DOM is a finite tree of element and text nodes. An element carries its
  lower-cased tag name, its class list, its attributes and the value of its
  `href` property as the browser reports it (the resolved URL, the empty
  string when the element has none).
* Strings are Lean strings; `String.prototype.trim` removes the ECMAScript
  white space and line terminator characters from both ends.
* The browser, the file system and the clock are an explicit `World` of
  outcomes; an asynchronous function is a function from a `State` (clock and
  trace of external calls) to a result and a new state.
-/

namespace Scraper

/-! ## DOM -/

/-- A DOM node: a text node or an element with its children in document order. -/
inductive Node where
  | text (data : String)
  | element (tagName : String) (classList : List String)
      (attributes : List (String × String)) (href : String) (childNodes : List Node)
  deriving Repr

mutual
/-- The elements of the subtree rooted at a node, the node first, in document order. -/
def Node.subtree : Node → List Node
  | .text _ => []
  | .element t c a h ch => .element t c a h ch :: Node.subtreeList ch
/-- The elements of the subtrees rooted at each node of a list, in document order. -/
def Node.subtreeList : List Node → List Node
  | [] => []
  | n :: ns => Node.subtree n ++ Node.subtreeList ns
end

/-- The element descendants of a node, in document order (the node itself excluded). -/
def Node.descendants : Node → List Node
  | .text _ => []
  | .element _ _ _ _ ch => Node.subtreeList ch

mutual
/-- The characters of `textContent`: the data of all text descendants, concatenated in document order. -/
def Node.textChars : Node → List Char
  | .text s => s.data
  | .element _ _ _ _ ch => Node.textCharsList ch
/-- The concatenated text data of a list of nodes. -/
def Node.textCharsList : List Node → List Char
  | [] => []
  | n :: ns => Node.textChars n ++ Node.textCharsList ns
end

/-- The property `textContent` of a node. -/
def Node.textContent (n : Node) : String := String.mk n.textChars

/-- The property `href` of an element (`undefined` is not modelled: every element has the field). -/
def Node.href : Node → String
  | .text _ => ""
  | .element _ _ _ h _ => h

/-- The class list of a node. -/
def Node.classList : Node → List String
  | .text _ => []
  | .element _ c _ _ _ => c

/-- The tag name of a node. -/
def Node.tagName : Node → String
  | .text _ => ""
  | .element t _ _ _ _ => t

/-- The attribute list of a node. -/
def Node.attributes : Node → List (String × String)
  | .text _ => []
  | .element _ _ a _ _ => a

/-- The method `getAttribute`: the value of the first attribute of that name, `none` for `null`. -/
def Node.getAttribute (n : Node) (name : String) : Option String :=
  (n.attributes.find? (fun kv => kv.1 == name)).map Prod.snd

/-! ## Selectors -/

/-- A compound CSS selector: an optional type selector, class selectors and at most one
attribute selector, `[name]` (value `none`) or `[name="value"]`. -/
structure Selector where
  tag : Option String
  classes : List String
  attr : Option (String × Option String)

/-- Whether an attribute selector holds of a node. -/
def Node.hasAttr (n : Node) : String × Option String → Bool
  | (name, none) => (n.getAttribute name).isSome
  | (name, some v) => n.getAttribute name == some v

/-- Whether a node is an element matching the selector (`Element.matches`). -/
def Node.isMatch (sel : Selector) : Node → Bool
  | .text _ => false
  | .element t c a h ch =>
    (match sel.tag with
      | none => true
      | some tg => t == tg)
    && sel.classes.all (fun k => c.contains k)
    && (match sel.attr with
      | none => true
      | some q => (Node.element t c a h ch).hasAttr q)

/-- The method `Element.querySelector`: the first matching descendant in document order. -/
def Node.querySelector (n : Node) (sel : Selector) : Option Node :=
  n.descendants.find? (Node.isMatch sel)

/-- The method `Element.querySelectorAll`: all matching descendants in document order. -/
def Node.querySelectorAll (n : Node) (sel : Selector) : List Node :=
  n.descendants.filter (Node.isMatch sel)

/-- A document, given by its root element. -/
structure Document where
  documentElement : Node

/-- The method `document.querySelector`: the first matching element of the document. -/
def Document.querySelector (d : Document) (sel : Selector) : Option Node :=
  d.documentElement.subtree.find? (Node.isMatch sel)

/-- The method `document.querySelectorAll`: all matching elements of the document in document order. -/
def Document.querySelectorAll (d : Document) (sel : Selector) : List Node :=
  d.documentElement.subtree.filter (Node.isMatch sel)

mutual
/-- The elements of a subtree in document order, each with its chain of ancestors, nearest first. -/
def Node.withAncestors (anc : List Node) : Node → List (Node × List Node)
  | .text _ => []
  | .element t c a h ch =>
    (.element t c a h ch, anc) :: Node.withAncestorsList (.element t c a h ch :: anc) ch
/-- The elements of a list of sibling subtrees with their ancestor chains. -/
def Node.withAncestorsList (anc : List Node) : List Node → List (Node × List Node)
  | [] => []
  | n :: ns => Node.withAncestors anc n ++ Node.withAncestorsList anc ns
end

/-- The first matching element of the document together with its ancestor chain. -/
def Document.querySelectorPath (d : Document) (sel : Selector) : Option (Node × List Node) :=
  (d.documentElement.withAncestors []).find? (fun p => Node.isMatch sel p.1)

/-- The method `Element.closest`: the element itself or its nearest ancestor matching the
selector, `none` for `null`. -/
def closest (p : Node × List Node) (sel : Selector) : Option Node :=
  (p.1 :: p.2).find? (Node.isMatch sel)

/-! ## Strings -/

/-- The ECMAScript `WhiteSpace` and `LineTerminator` code points, the ones `trim` removes. -/
def isWhiteSpace (c : Char) : Bool :=
  let n := c.toNat
  n == 0x9 || n == 0xA || n == 0xB || n == 0xC || n == 0xD || n == 0x20 || n == 0xA0
    || n == 0x1680 || (0x2000 ≤ n && n ≤ 0x200A) || n == 0x2028 || n == 0x2029
    || n == 0x202F || n == 0x205F || n == 0x3000 || n == 0xFEFF

/-- The characters left by `String.prototype.trim`. -/
def trimChars (l : List Char) : List Char :=
  (l.dropWhile isWhiteSpace).rdropWhile isWhiteSpace

/-- The method `String.prototype.trim`. -/
def trim (s : String) : String := String.mk (trimChars s.data)

/-- The method `String.prototype.includes` on character lists: `t` occurs in `l`. -/
def includesChars (t : List Char) : List Char → Bool
  | [] => t.isEmpty
  | c :: cs => t.isPrefixOf (c :: cs) || includesChars t cs

/-- The method `String.prototype.includes`. -/
def includes (s t : String) : Bool := includesChars t.data s.data

/-- JavaScript truthiness of a string: it is not empty. -/
def truthy (s : String) : Bool := !s.data.isEmpty

/-! ## Records and the selectors of the scripts -/

/-- A headline record `{ section, headline, link }`, with `date` in the date-augmented variants. -/
structure HeadlineRecord where
  «section» : String
  headline : String
  link : String
  date : Option String
  deriving DecidableEq, Repr

/-- Selector `.container__headline-text`. -/
def headlineTextSel : Selector := ⟨none, ["container__headline-text"], none⟩
/-- Selector `a.container__link`. -/
def containerLinkSel : Selector := ⟨some "a", ["container__link"], none⟩
/-- Selector `.container_lead-package__cards-wrapper`. -/
def leadPackageSel : Selector := ⟨none, ["container_lead-package__cards-wrapper"], none⟩
/-- Selector `.card`. -/
def cardSel : Selector := ⟨none, ["card"], none⟩
/-- Selector `.zone__content[data-zone-label="More Top Stories"]`. -/
def moreTopStoriesZoneSel : Selector :=
  ⟨none, ["zone__content"], some ("data-zone-label", some "More Top Stories")⟩
/-- Selector `.zone__content[data-zone-label]`. -/
def labelledZoneSel : Selector := ⟨none, ["zone__content"], some ("data-zone-label", none)⟩
/-- Selector `.container_lead-plus-headlines__item`. -/
def leadPlusItemSel : Selector := ⟨none, ["container_lead-plus-headlines__item"], none⟩
/-- Selector `[data-section="..."]`. -/
def dataSectionSel (name : String) : Selector := ⟨none, [], some ("data-section", some name)⟩
/-- Selector `.zone[data-collapsed-text="In Case You Missed It"]`. -/
def missedItSel : Selector :=
  ⟨none, ["zone"], some ("data-collapsed-text", some "In Case You Missed It")⟩
/-- Selector `.zone__title.zone--title`. -/
def zoneTitleSel : Selector := ⟨none, ["zone__title", "zone--title"], none⟩
/-- Selector `.zone__inner`. -/
def zoneInnerSel : Selector := ⟨none, ["zone__inner"], none⟩

/-- The errors a run can raise. -/
inductive Error where
  | launch
  | newPage
  | authenticate
  | navigation (attempt : Nat)
  | content
  | writeFile
  | evaluate
  | typeError
  | close
  deriving DecidableEq, Repr

/-- The callback `extractHeadlineData(element, section)`: it pushes one record on `headlines`
when the trimmed text of the first `.container__headline-text` descendant and the `href` of the
first `a.container__link` descendant are both truthy, and leaves `headlines` as it is otherwise.
`currentDate` is the captured date of the date-augmented variants. -/
def extractHeadlineData (currentDate : Option String) (headlines : List HeadlineRecord)
    (element : Node) («section» : String) : List HeadlineRecord :=
  let headline := (element.querySelector headlineTextSel).map (fun e => trim e.textContent)
  let link := (element.querySelector containerLinkSel).map Node.href
  match headline, link with
  | some h, some l =>
    if truthy h && truthy l then headlines ++ [⟨«section», h, l, currentDate⟩] else headlines
  | _, _ => headlines

/-- The loop `stories.forEach(story => extractHeadlineData(story, section))`. -/
def forEachStory (currentDate : Option String) («section» : String) (stories : List Node)
    (headlines : List HeadlineRecord) : List HeadlineRecord :=
  stories.foldl (fun hs story => extractHeadlineData currentDate hs story «section») headlines

/-! ## The world outside the script -/

/-- The external calls a run makes, in the order it makes them. -/
inductive Event where
  | launch
  | newPage
  | authenticate
  | setDefaultNavigationTimeout (ms : Nat)
  | goto (url waitUntil : String) (timeout : Nat)
  | setTimeout (ms : Nat)
  | content
  | writeFile (path : String)
  | waitForSelector (timeout : Nat)
  | evaluate
  | close
  | writeRecords (path : String) (header : List String) (records : List HeadlineRecord)
  deriving DecidableEq, Repr

/-- Whether an event is a call of `page.goto`. -/
def Event.isGoto : Event → Bool
  | .goto _ _ _ => true
  | _ => false

/-- Whether an event is the retry delay `setTimeout(resolve, 5000)`. -/
def Event.isDelay : Event → Bool
  | .setTimeout _ => true
  | _ => false

/-- Whether an event is a call of `csvWriter.writeRecords`. -/
def Event.isWriteRecords : Event → Bool
  | .writeRecords _ _ _ => true
  | _ => false

/-- The outcomes the environment gives to the external calls of one run: whether each call
succeeds (`gotoOk i` for the call of `page.goto` made after `i` earlier ones), how long the
`k`-th external call of the run takes, the clock at the start and the DOM the page holds when
the page function is evaluated. -/
structure World where
  launchOk : Bool
  newPageOk : Bool
  authenticateOk : Bool
  gotoOk : Nat → Bool
  contentOk : Bool
  writeFileOk : Bool
  waitForSelectorOk : Bool
  evaluateOk : Bool
  closeOk : Bool
  writeRecordsOk : Bool
  duration : Nat → Nat
  startTime : Nat
  document : Document

/-- The state of a run: the clock, in milliseconds since the epoch, and the external calls made
so far. -/
structure State where
  now : Nat
  trace : List Event

/-- The number of calls of `page.goto` made so far. -/
def State.gotoCalls (s : State) : Nat := s.trace.countP Event.isGoto

/-- The state in which a run starts. -/
def World.init (w : World) : State := ⟨w.startTime, []⟩

/-- An asynchronous function: from a state to a value or a raised error, and the state after. -/
def Run (α : Type) : Type := State → Except Error α × State

/-- A function that returns at once. -/
def Run.pure {α : Type} (a : α) : Run α := fun s => (.ok a, s)

/-- Sequencing with `await`: a raised error skips what follows. -/
def Run.bind {α β : Type} (x : Run α) (f : α → Run β) : Run β := fun s =>
  match x s with
  | (.ok a, s1) => f a s1
  | (.error e, s1) => (.error e, s1)

instance : Monad Run where
  pure := Run.pure
  bind := Run.bind

/-- The statement `throw error`. -/
def Run.throw {α : Type} (e : Error) : Run α := fun s => (.error e, s)

/-- The statement `try { x } catch (error) { h error }`. -/
def Run.tryCatch {α : Type} (x : Run α) (h : Error → Run α) : Run α := fun s =>
  match x s with
  | (.ok a, s1) => (.ok a, s1)
  | (.error e, s1) => h e s1

/-- The statement `try { x } finally { fin }`: `fin` runs whatever `x` did, and an error it
raises replaces the outcome of `x`. -/
def Run.tryFinally {α : Type} (x : Run α) (fin : Run Unit) : Run α := fun s =>
  match x s with
  | (r, s1) =>
    match fin s1 with
    | (.ok _, s2) => (r, s2)
    | (.error e, s2) => (.error e, s2)

/-- The state after an external call: the call is recorded and the clock has advanced by
`extra` milliseconds plus what the world says for a call at this position. -/
def State.push (s : State) (w : World) (ev : Event) (extra : Nat) : State :=
  ⟨s.now + extra + w.duration s.trace.length, s.trace ++ [ev]⟩

/-- An external call: it is recorded, takes `extra` milliseconds plus what the world says for
a call at this position, and succeeds when `ok`, raising `err` otherwise. -/
def call (w : World) (ev : Event) (ok : Bool) (err : Error) (extra : Nat) : Run Unit := fun s =>
  (if ok then .ok () else .error err, s.push w ev extra)

/-! ## Dates -/

/-- The decimal digits of `n`, padded with zeros to `width` digits (the low `width` digits when
there are more). -/
def padDigits : Nat → Nat → List Char
  | 0, _ => []
  | width + 1, n => padDigits width (n / 10) ++ [Char.ofNat (48 + n % 10)]

/-- The civil date `(year, month, day)` of a day count since 1970-01-01 in the proleptic
Gregorian calendar. -/
def civilFromDays (z : Nat) : Nat × Nat × Nat :=
  let z := z + 719468
  let era := z / 146097
  let doe := z % 146097
  let yoe := (doe - doe / 1460 + doe / 36524 - doe / 146096) / 365
  let doy := doe - (365 * yoe + yoe / 4 - yoe / 100)
  let mp := (5 * doy + 2) / 153
  let d := doy - (153 * mp + 2) / 5 + 1
  let m := if mp < 10 then mp + 3 else mp - 9
  let y := yoe + era * 400
  (if m ≤ 2 then y + 1 else y, m, d)

/-- The expression `new Date().toISOString().split('T')[0]` when the clock reads `now`
milliseconds since the epoch: the UTC calendar date, `YYYY-MM-DD` (`+YYYYYY-MM-DD` after the
year 9999). -/
def isoDate (now : Nat) : String :=
  match civilFromDays (now / 86400000) with
  | (y, m, d) =>
    String.mk ((if y ≤ 9999 then padDigits 4 y else '+' :: padDigits 6 y)
      ++ ['-'] ++ padDigits 2 m ++ ['-'] ++ padDigits 2 d)

/-- The zone loop of the zone-iterating variants:
`featuredSections.forEach(section => { const sectionName = section.getAttribute('data-zone-label');
if (sectionName && sectionName !== 'More Top Stories') section.querySelectorAll('.card').forEach(...) })`. -/
def forEachZone (currentDate : Option String) (featuredSections : List Node)
    (headlines : List HeadlineRecord) : List HeadlineRecord :=
  featuredSections.foldl (fun hs zone =>
    match zone.getAttribute "data-zone-label" with
    | some sectionName =>
      if truthy sectionName && sectionName != "More Top Stories" then
        forEachStory currentDate sectionName (zone.querySelectorAll cardSel) hs
      else hs
    | none => hs) headlines

namespace Save_headlines

/-- The function evaluated in the page by `extractHeadlines` of `Save_headlines.js`. -/
def pageFunction (document : Document) : Except Error (List HeadlineRecord) := do
  let headlines : List HeadlineRecord := []
  -- Top stories
  let headlines :=
    match document.querySelector leadPackageSel with
    | some topStoriesContainer =>
      forEachStory none "Top Stories" (topStoriesContainer.querySelectorAll cardSel) headlines
    | none => headlines
  -- More top stories
  let headlines :=
    match document.querySelector moreTopStoriesZoneSel with
    | some moreTopStoriesContainer =>
      forEachStory none "More Top Stories" (moreTopStoriesContainer.querySelectorAll cardSel)
        headlines
    | none => headlines
  -- Featured sections
  let featuredSections := document.querySelectorAll labelledZoneSel
  let headlines := forEachZone none featuredSections headlines
  return headlines

end Save_headlines

namespace copy

/-- The function evaluated in the page by `extractHeadlines` of `copy.js`. -/
def pageFunction (document : Document) : Except Error (List HeadlineRecord) := do
  let headlines : List HeadlineRecord := []
  -- Top stories
  let headlines :=
    match document.querySelector leadPackageSel with
    | some topStoriesContainer =>
      forEachStory none "Top Stories" (topStoriesContainer.querySelectorAll cardSel) headlines
    | none => headlines
  -- More top stories
  let headlines :=
    match document.querySelector moreTopStoriesZoneSel with
    | some moreTopStoriesContainer =>
      forEachStory none "More Top Stories" (moreTopStoriesContainer.querySelectorAll cardSel)
        headlines
    | none => headlines
  -- Featured sections
  let headlines := forEachZone none (document.querySelectorAll labelledZoneSel) headlines
  return headlines

end copy

namespace more_top_stories

/-- The function evaluated in the page by `extractHeadlines` of `more_top_stories.js`, with the
date passed to it. -/
def pageFunction (currentDate : String) (document : Document) :
    Except Error (List HeadlineRecord) := do
  let headlines : List HeadlineRecord := []
  -- Top stories
  let headlines :=
    match document.querySelector leadPackageSel with
    | some topStoriesContainer =>
      forEachStory (some currentDate) "Top Stories" (topStoriesContainer.querySelectorAll cardSel)
        headlines
    | none => headlines
  -- More Top Stories
  let moreTopStoriesContainer := document.querySelectorAll leadPlusItemSel
  let headlines :=
    if moreTopStoriesContainer.length != 0 then
      forEachStory (some currentDate) "More Top Stories" moreTopStoriesContainer headlines
    else headlines
  -- Featured sections
  let featuredSections := document.querySelectorAll labelledZoneSel
  let headlines := forEachZone (some currentDate) featuredSections headlines
  return headlines

end more_top_stories

namespace cnn_scraper

/-- The function evaluated in the page by `extractHeadlines` of `cnn_scraper.js`, with the date
passed to it. Calling `querySelectorAll` on the `null` that `closest` returns raises a
`TypeError`. -/
def pageFunction (currentDate : String) (document : Document) :
    Except Error (List HeadlineRecord) := do
  let headlines : List HeadlineRecord := []
  -- Top stories
  let headlines :=
    match document.querySelector leadPackageSel with
    | some topStoriesContainer =>
      forEachStory (some currentDate) "Top Stories" (topStoriesContainer.querySelectorAll cardSel)
        headlines
    | none => headlines
  -- More Top Stories
  let moreTopStoriesContainer := document.querySelectorAll leadPlusItemSel
  let headlines :=
    if moreTopStoriesContainer.length != 0 then
      forEachStory (some currentDate) "More Top Stories" moreTopStoriesContainer headlines
    else headlines
  -- Global Business section
  let globalBusinessStories := document.querySelectorAll (dataSectionSel "business")
  let headlines := forEachStory (some currentDate) "Global Business" globalBusinessStories headlines
  -- Sport section
  let sportStories := document.querySelectorAll (dataSectionSel "sport")
  let headlines := forEachStory (some currentDate) "Sport" sportStories headlines
  -- Style section
  let styleStories := document.querySelectorAll (dataSectionSel "style")
  let headlines := forEachStory (some currentDate) "Style" styleStories headlines
  -- Travel gallery
  let travelGallery := document.querySelectorAll (dataSectionSel "travel")
  let headlines := forEachStory (some currentDate) "Travel" travelGallery headlines
  -- In Case You Missed It
  let headlines :=
    match document.querySelector missedItSel with
    | some inCaseYouMissedIt =>
      forEachStory (some currentDate) "In Case You Missed It"
        (inCaseYouMissedIt.querySelectorAll cardSel) headlines
    | none => headlines
  -- Featured sections
  match document.querySelectorPath zoneTitleSel with
  | some featuredSectionsTitle =>
    if includes featuredSectionsTitle.1.textContent "Featured Sections" then
      match closest featuredSectionsTitle zoneInnerSel with
      | some zoneInner =>
        let featuredStories := zoneInner.querySelectorAll cardSel
        return forEachStory (some currentDate) "Featured Sections" featuredStories headlines
      | none => throw Error.typeError
    else return headlines
  | none => return headlines

end cnn_scraper

/-! ## The asynchronous functions -/

/-- The default of the parameter `retries` of `scrapeCNNHomepage`. -/
def defaultRetries : Nat := 3

/-- The function `setupBrowser` of `Save_headlines.js`, `more_top_stories.js` and
`cnn_scraper.js`: launch, new page, proxy authentication. -/
def setupBrowser (w : World) : Run Unit := do
  call w .launch w.launchOk .launch 0
  call w .newPage w.newPageOk .newPage 0
  call w .authenticate w.authenticateOk .authenticate 0

/-- The call `page.goto('https://www.cnn.com/', { waitUntil: 'networkidle0', timeout: 120000 })`;
its outcome is the one the world gives to the call of `page.goto` of this rank. -/
def pageGoto (w : World) : Run Unit := fun s =>
  call w (.goto "https://www.cnn.com/" "networkidle0" 120000) (w.gotoOk s.gotoCalls)
    (.navigation s.gotoCalls) 0 s

/-- The loop `for (let i = 0; i < retries; i++) { try { await page.goto(...); break; }
catch (error) { if (i === retries - 1) throw error; await new Promise(resolve =>
setTimeout(resolve, 5000)); } }` from the value `i` of its counter, with `fuel` bounding the
number of iterations. -/
def retryLoop (w : World) (retries : Nat) : Nat → Nat → Run Unit
  | 0, _ => Run.pure ()
  | fuel + 1, i => fun s =>
    if i < retries then
      match pageGoto w s with
      | (.ok _, s1) => (.ok (), s1)
      | (.error error, s1) =>
        if i = retries - 1 then (.error error, s1)
        else
          match call w (.setTimeout 5000) true error 5000 s1 with
          | (_, s2) => retryLoop w retries fuel (i + 1) s2
    else (.ok (), s)

/-- The call `page.waitForSelector(..., { timeout: 10000 }).catch(() => console.log(...))`. -/
def waitForLeadPackage (w : World) : Run Unit :=
  Run.tryCatch (call w (.waitForSelector 10000) w.waitForSelectorOk .evaluate 0)
    (fun _ => Run.pure ())

/-- The `try` block of `scrapeCNNHomepage(retries)` in `Save_headlines.js`,
`more_top_stories.js` and `cnn_scraper.js`: navigation with retry, debug dump, wait for the
lead package, extraction. -/
def tryBlock (extractHeadlines : World → Run (List HeadlineRecord)) (w : World)
    (retries : Nat) : Run (Option (List HeadlineRecord)) := do
  call w (.setDefaultNavigationTimeout 120000) true .evaluate 0
  retryLoop w retries retries 0
  -- Save page content for debugging
  call w .content w.contentOk .content 0
  call w (.writeFile "cnn_page_content.html") w.writeFileOk .writeFile 0
  -- Wait for content to load
  waitForLeadPackage w
  let headlines ← extractHeadlines w
  return some headlines

/-- The function `scrapeCNNHomepage(retries)` of `Save_headlines.js`, `more_top_stories.js` and
`cnn_scraper.js`, whose texts differ only in the `extractHeadlines` they call: the `try` block,
the handler `catch (error) { console.error(...) }` and `finally { await browser.close() }`. The
result `none` is `undefined`. -/
def scrapeCNNHomepageWith (extractHeadlines : World → Run (List HeadlineRecord)) (w : World)
    (retries : Nat) : Run (Option (List HeadlineRecord)) := do
  setupBrowser w
  Run.tryFinally
    (Run.tryCatch (tryBlock extractHeadlines w retries) (fun _ => Run.pure none))
    (call w .close w.closeOk .close 0)

/-- The call `page.evaluate(pageFunction)`: it fails when the world makes it fail, and returns
or raises what the page function does on the DOM of the page otherwise. -/
def pageEvaluate (w : World) (pageFunction : Document → Except Error (List HeadlineRecord)) :
    Run (List HeadlineRecord) := fun s =>
  match call w .evaluate w.evaluateOk .evaluate 0 s with
  | (.ok _, s1) => (pageFunction w.document, s1)
  | (.error e, s1) => (.error e, s1)

/-- The function `storeDataInCSV(data, filename)`: one call of `writeRecords` under the given
header ids, whose failure is caught and logged. -/
def storeDataInCSVWith (header : List String) (w : World) (data : List HeadlineRecord)
    (filename : String) : Run Unit :=
  Run.tryCatch (call w (.writeRecords filename header data) w.writeRecordsOk .writeFile 0)
    (fun _ => Run.pure ())

/-- The function `main` of the four scripts: the records are stored when `scrapeCNNHomepage`
returned a non-empty array, and every error is caught and logged. -/
def mainWith (scrapeCNNHomepage : World → Run (Option (List HeadlineRecord)))
    (storeDataInCSV : World → List HeadlineRecord → String → Run Unit) (w : World) : Run Unit :=
  Run.tryCatch
    (do
      let headlines ← scrapeCNNHomepage w
      match headlines with
      | some hs =>
        if hs.length > 0 then storeDataInCSV w hs "cnn_headlines.csv" else Run.pure ()
      | none => Run.pure ())
    (fun _ => Run.pure ())

namespace Save_headlines

/-- The function `extractHeadlines(page)` of `Save_headlines.js`. -/
def extractHeadlines (w : World) : Run (List HeadlineRecord) := pageEvaluate w pageFunction

/-- The function `scrapeCNNHomepage(retries)` of `Save_headlines.js`. -/
def scrapeCNNHomepage (w : World) (retries : Nat) : Run (Option (List HeadlineRecord)) :=
  scrapeCNNHomepageWith extractHeadlines w retries

/-- The function `storeDataInCSV` of `Save_headlines.js`. -/
def storeDataInCSV : World → List HeadlineRecord → String → Run Unit :=
  storeDataInCSVWith ["section", "headline", "link"]

/-- The function `main` of `Save_headlines.js`. -/
def main : World → Run Unit :=
  mainWith (fun w => scrapeCNNHomepage w defaultRetries) storeDataInCSV

end Save_headlines

namespace more_top_stories

/-- The function `extractHeadlines(page)` of `more_top_stories.js`: the date is read from the
clock when the function is called. -/
def extractHeadlines (w : World) : Run (List HeadlineRecord) := fun s =>
  pageEvaluate w (pageFunction (isoDate s.now)) s

/-- The function `scrapeCNNHomepage(retries)` of `more_top_stories.js`. -/
def scrapeCNNHomepage (w : World) (retries : Nat) : Run (Option (List HeadlineRecord)) :=
  scrapeCNNHomepageWith extractHeadlines w retries

/-- The function `storeDataInCSV` of `more_top_stories.js`. -/
def storeDataInCSV : World → List HeadlineRecord → String → Run Unit :=
  storeDataInCSVWith ["section", "headline", "link", "date"]

/-- The function `main` of `more_top_stories.js`. -/
def main : World → Run Unit :=
  mainWith (fun w => scrapeCNNHomepage w defaultRetries) storeDataInCSV

end more_top_stories

namespace cnn_scraper

/-- The function `extractHeadlines(page)` of `cnn_scraper.js`: the date is read from the clock
when the function is called. -/
def extractHeadlines (w : World) : Run (List HeadlineRecord) := fun s =>
  pageEvaluate w (pageFunction (isoDate s.now)) s

/-- The function `scrapeCNNHomepage(retries)` of `cnn_scraper.js`. -/
def scrapeCNNHomepage (w : World) (retries : Nat) : Run (Option (List HeadlineRecord)) :=
  scrapeCNNHomepageWith extractHeadlines w retries

/-- The function `storeDataInCSV` of `cnn_scraper.js`. -/
def storeDataInCSV : World → List HeadlineRecord → String → Run Unit :=
  storeDataInCSVWith ["section", "headline", "link", "date"]

/-- The function `main` of `cnn_scraper.js`. -/
def main : World → Run Unit :=
  mainWith (fun w => scrapeCNNHomepage w defaultRetries) storeDataInCSV

end cnn_scraper

namespace copy

/-- The function `extractHeadlines(page)` of `copy.js`. -/
def extractHeadlines (w : World) : Run (List HeadlineRecord) := pageEvaluate w pageFunction

/-- The function `setupBrowser` of `copy.js`: launch and new page, without a proxy. -/
def setupBrowser (w : World) : Run Unit := do
  call w .launch w.launchOk .launch 0
  call w .newPage w.newPageOk .newPage 0

/-- The `try` block of `scrapeCNNHomepage()` in `copy.js`: one call of `page.goto`, then
extraction. -/
def tryBlock (w : World) : Run (Option (List HeadlineRecord)) := do
  call w (.setDefaultNavigationTimeout 60000) true .evaluate 0
  (fun s => call w (.goto "https://www.cnn.com/" "networkidle2" 60000)
    (w.gotoOk s.gotoCalls) (.navigation s.gotoCalls) 0 s : Run Unit)
  let headlines ← extractHeadlines w
  return some headlines

/-- The function `scrapeCNNHomepage()` of `copy.js`: no retry. -/
def scrapeCNNHomepage (w : World) : Run (Option (List HeadlineRecord)) := do
  setupBrowser w
  Run.tryFinally
    (Run.tryCatch (tryBlock w) (fun _ => Run.pure none))
    (call w .close w.closeOk .close 0)

/-- The function `storeDataInCSV` of `copy.js`. -/
def storeDataInCSV : World → List HeadlineRecord → String → Run Unit :=
  storeDataInCSVWith ["section", "headline", "link"]

/-- The function `main` of `copy.js`. -/
def main : World → Run Unit := mainWith scrapeCNNHomepage storeDataInCSV

end copy

/-! ## Specification-side definitions -/

/-- A card is valid when its first `.container__headline-text` descendant has non-empty trimmed
text and its first `a.container__link` descendant has a non-empty `href`; the record of a valid
card under a section label. -/
def validRecord (currentDate : Option String) (label : String) (card : Node) :
    Option HeadlineRecord :=
  match card.querySelector headlineTextSel, card.querySelector containerLinkSel with
  | some h, some a =>
    if trim h.textContent ≠ "" ∧ a.href ≠ "" then
      some ⟨label, trim h.textContent, a.href, currentDate⟩
    else none
  | _, _ => none

/-- The valid cards of a list of cards, in the order of the list, tagged with a label. -/
def validCards (currentDate : Option String) (label : String) (cards : List Node) :
    List HeadlineRecord :=
  cards.filterMap (validRecord currentDate label)

/-- The records of one labelled zone: its valid cards in document order tagged with its label,
when the label is non-empty and not `More Top Stories`, and none otherwise. -/
def zoneRecords (currentDate : Option String) (zone : Node) : List HeadlineRecord :=
  match zone.getAttribute "data-zone-label" with
  | some label =>
    if label ≠ "" ∧ label ≠ "More Top Stories" then
      validCards currentDate label (zone.querySelectorAll cardSel)
    else []
  | none => []

/-- The records of the top-stories region: the valid cards of the first lead-package wrapper,
none when the document has no such wrapper. -/
def topStoriesRecords (currentDate : Option String) (d : Document) : List HeadlineRecord :=
  match d.querySelector leadPackageSel with
  | some wrapper => validCards currentDate "Top Stories" (wrapper.querySelectorAll cardSel)
  | none => []

/-- The records of the dedicated More Top Stories case of `Save_headlines.js` and `copy.js`. -/
def moreTopStoriesZoneRecords (currentDate : Option String) (d : Document) :
    List HeadlineRecord :=
  match d.querySelector moreTopStoriesZoneSel with
  | some zone => validCards currentDate "More Top Stories" (zone.querySelectorAll cardSel)
  | none => []

/-- The records of the dedicated More Top Stories case of `more_top_stories.js` and
`cnn_scraper.js`: the valid ones among the `.container_lead-plus-headlines__item` elements. -/
def leadPlusRecords (currentDate : Option String) (d : Document) : List HeadlineRecord :=
  validCards currentDate "More Top Stories" (d.querySelectorAll leadPlusItemSel)

/-- The records of the labelled zones, zone after zone in document order. -/
def labelledZoneRecords (currentDate : Option String) (d : Document) : List HeadlineRecord :=
  (d.querySelectorAll labelledZoneSel).flatMap (zoneRecords currentDate)

/-- The records of a `data-section` region of `cnn_scraper.js`. -/
def dataSectionRecords (currentDate : Option String) (name label : String) (d : Document) :
    List HeadlineRecord :=
  validCards currentDate label (d.querySelectorAll (dataSectionSel name))

/-- The records of the `In Case You Missed It` zone of `cnn_scraper.js`. -/
def missedItRecords (currentDate : Option String) (d : Document) : List HeadlineRecord :=
  match d.querySelector missedItSel with
  | some zone => validCards currentDate "In Case You Missed It" (zone.querySelectorAll cardSel)
  | none => []

/-- The records `cnn_scraper.js` has pushed when it reaches the Featured Sections case. -/
def beforeFeatured (currentDate : Option String) (d : Document) : List HeadlineRecord :=
  topStoriesRecords currentDate d ++ leadPlusRecords currentDate d
    ++ dataSectionRecords currentDate "business" "Global Business" d
    ++ dataSectionRecords currentDate "sport" "Sport" d
    ++ dataSectionRecords currentDate "style" "Style" d
    ++ dataSectionRecords currentDate "travel" "Travel" d
    ++ missedItRecords currentDate d

/-- The Featured Sections title is dangling: the first `.zone__title.zone--title` element has
a text that includes `Featured Sections` and neither it nor an ancestor is a `.zone__inner`. -/
def featuredTitleDangling (d : Document) : Bool :=
  match d.querySelectorPath zoneTitleSel with
  | some title =>
    includes title.1.textContent "Featured Sections" && (closest title zoneInnerSel).isNone
  | none => false

/-- The records of the Featured Sections case of `cnn_scraper.js`: the valid cards of the
nearest `.zone__inner` around the title, when the title is there with its text. -/
def featuredRecords (currentDate : Option String) (d : Document) : List HeadlineRecord :=
  match d.querySelectorPath zoneTitleSel with
  | some title =>
    if includes title.1.textContent "Featured Sections" then
      match closest title zoneInnerSel with
      | some zoneInner =>
        validCards currentDate "Featured Sections" (zoneInner.querySelectorAll cardSel)
      | none => []
    else []
  | none => []

/-- A record is well formed: its headline is non-empty and equals its own trim, and its link is
non-empty. -/
def HeadlineRecord.wellFormed (r : HeadlineRecord) : Prop :=
  r.headline ≠ "" ∧ trim r.headline = r.headline ∧ r.link ≠ ""

namespace Save_headlines

/-- The sequence the specification gives for `Save_headlines.js`: the valid cards of the first
lead-package wrapper tagged `Top Stories`, then the valid cards of the first zone labelled
`More Top Stories` tagged `More Top Stories`, then for each labelled zone in document order whose
label is non-empty and not `More Top Stories` its valid cards tagged with that label. -/
def concatenation (d : Document) : List HeadlineRecord :=
  (match (d.querySelectorAll leadPackageSel).head? with
    | some wrapper => validCards none "Top Stories" (wrapper.querySelectorAll cardSel)
    | none => [])
  ++ (match (d.querySelectorAll labelledZoneSel).find?
        (fun z => z.getAttribute "data-zone-label" == some "More Top Stories") with
    | some zone => validCards none "More Top Stories" (zone.querySelectorAll cardSel)
    | none => [])
  ++ (d.querySelectorAll labelledZoneSel).flatMap (zoneRecords none)

end Save_headlines

/-- The event of one call of `page.goto` in the retrying variants. -/
def gotoEvent : Event := .goto "https://www.cnn.com/" "networkidle0" 120000

/-- The external calls of a retry loop whose last attempt is preceded by `m` failed ones: each
failed attempt is followed by one delay of 5000 ms, the last attempt by none. -/
def attempts : Nat → List Event
  | 0 => [gotoEvent]
  | m + 1 => gotoEvent :: .setTimeout 5000 :: attempts m

/-- The external calls a run has made when its retry loop starts. -/
def setupTrace : List Event :=
  [.launch, .newPage, .authenticate, .setDefaultNavigationTimeout 120000]

/-! ## Fixtures -/

/-- A card element with a headline text and a link. -/
def fixtureCard (headline link : String) : Node :=
  .element "div" ["card"] [] ""
    [.element "span" ["container__headline-text"] [] "" [.text headline],
     .element "a" ["container__link"] [("href", link)] link []]

/-- A page with one top-stories region holding two valid cards and, between them, one card with
an empty headline. -/
def fixtureTopStories : Document :=
  ⟨.element "html" [] [] ""
    [.element "div" ["container_lead-package__cards-wrapper"] [] ""
      [fixtureCard " First " "https://www.cnn.com/a", fixtureCard "  " "https://www.cnn.com/b",
       fixtureCard "Third" "https://www.cnn.com/c"]]⟩

/-- A world in which every external call succeeds at once, started at the epoch. -/
def nominalWorld (d : Document) : World :=
  { launchOk := true, newPageOk := true, authenticateOk := true, gotoOk := fun _ => true,
    contentOk := true, writeFileOk := true, waitForSelectorOk := true, evaluateOk := true,
    closeOk := true, writeRecordsOk := true, duration := fun _ => 0, startTime := 0,
    document := d }

/-- A world whose navigation never succeeds; every other call succeeds. -/
def navigationDown : World :=
  { nominalWorld fixtureTopStories with gotoOk := fun _ => false }

/-- A world whose first `k` calls of `page.goto` fail and whose later ones succeed; every other
call succeeds. -/
def failsFirst (k : Nat) : World :=
  { nominalWorld fixtureTopStories with gotoOk := fun i => decide (k ≤ i) }

/-- A world in which the browser is launched and the creation of the page then fails. -/
def pageCreationFails : World :=
  { nominalWorld fixtureTopStories with newPageOk := false }

/-- The state in which the retry loop of a run starts: after `setupBrowser` and
`page.setDefaultNavigationTimeout(120000)`. -/
def loopStart (w : World) : State :=
  (setupBrowser w w.init).2.push w (.setDefaultNavigationTimeout 120000) 0

/-- The state in which `extractHeadlines` is called in a run whose retry loop ended in `s`
and whose debug dump succeeded. -/
def extractionStart (w : World) (s : State) : State :=
  ((s.push w .content 0).push w (.writeFile "cnn_page_content.html") 0).push
    w (.waitForSelector 10000) 0

/-- The external calls between the retry loop and the extraction. -/
def dumpTrace : List Event :=
  [.content, .writeFile "cnn_page_content.html", .waitForSelector 10000]

/-- What the handler `catch (error) { console.error(...) }` makes of the outcome of the `try`
block: a raised error becomes the normal result `undefined`. -/
def caught {α : Type} : Except Error (Option α) → Except Error (Option α)
  | .ok a => .ok a
  | .error _ => .ok none

/-- What `scrapeCNNHomepage` returns, the browser closed, when `extractHeadlines` had the given
outcome: the records, or `undefined` when the extraction raised an error. -/
def returned : Except Error (List HeadlineRecord) → Except Error (Option (List HeadlineRecord))
  | .ok rs => .ok (some rs)
  | .error _ => .ok none

/-- A run of `scrape` with retry count `N` completes with the records of `extractHeadlines`
after `k` failed attempts: the extraction returns records, `scrape` returns them, and the
external calls are the setup, `k` failed attempts each followed by the delay, the attempt that
succeeds, the debug dump, the wait, the evaluation and `browser.close()`. -/
def completesWithRecords (scrape : World → Nat → Run (Option (List HeadlineRecord)))
    (extractHeadlines : World → Run (List HeadlineRecord)) (w : World) (N k : Nat) : Prop :=
  ∃ rs, (extractHeadlines w (extractionStart w (retryLoop w N N 0 (loopStart w)).2)).1 = .ok rs
    ∧ (scrape w N w.init).1 = .ok (some rs)
    ∧ (scrape w N w.init).2.trace
        = setupTrace ++ attempts k ++ dumpTrace ++ [.evaluate, .close]

/-- A page whose `Featured Sections` title has no `.zone__inner` around it. -/
def fixtureDanglingTitle : Document :=
  ⟨.element "html" [] [] ""
    [.element "div" ["zone"] [] ""
      [.element "h2" ["zone__title", "zone--title"] [] "" [.text "Featured Sections"],
       fixtureCard "Story" "https://www.cnn.com/s"]]⟩

/-- A page with two lead-package wrappers: the first holds no card, the second one valid
card. -/
def fixtureTwoWrappers : Document :=
  ⟨.element "html" [] [] ""
    [.element "div" ["container_lead-package__cards-wrapper"] [] "" [],
     .element "div" ["container_lead-package__cards-wrapper"] [] ""
      [fixtureCard "Story" "https://www.cnn.com/s"]]⟩

/-- The document without the `i`-th child subtree of its root element (a fixture operation,
not one of the scripts). -/
def Document.removeChild (d : Document) (i : Nat) : Document :=
  match d.documentElement with
  | .text t => ⟨.text t⟩
  | .element t c a h ch => ⟨.element t c a h (ch.eraseIdx i)⟩

/-- A page with a lead-package wrapper, a zone labelled `Top Stories`, a zone labelled
`More Top Stories`, a zone labelled `Sport` and a zone with an empty label, one valid card in
each. -/
def fixtureZones : Document :=
  ⟨.element "html" [] [] ""
    [.element "div" ["container_lead-package__cards-wrapper"] [] ""
      [fixtureCard "Lead" "https://www.cnn.com/lead"],
     .element "div" ["zone__content"] [("data-zone-label", "Top Stories")] ""
      [fixtureCard "Zone top" "https://www.cnn.com/top"],
     .element "div" ["zone__content"] [("data-zone-label", "More Top Stories")] ""
      [fixtureCard "More" "https://www.cnn.com/more"],
     .element "div" ["zone__content"] [("data-zone-label", "Sport")] ""
      [fixtureCard "Match" "https://www.cnn.com/sport"],
     .element "div" ["zone__content"] [("data-zone-label", "")] ""
      [fixtureCard "Unlabelled" "https://www.cnn.com/none"]]⟩

/-- A world started one second before midnight UTC on 1970-01-01 whose first navigation attempt
fails and whose second succeeds; every other call succeeds at once. -/
def beforeMidnight : World :=
  { failsFirst 1 with startTime := 86399000 }

/-- A world in which every external call succeeds and takes one second, started half a second
before midnight UTC on 1970-01-01. -/
def slowWorld : World :=
  { nominalWorld fixtureTopStories with duration := fun _ => 1000, startTime := 86399500 }

/-- A record without its date. -/
def HeadlineRecord.withoutDate (r : HeadlineRecord) : HeadlineRecord :=
  ⟨r.«section», r.headline, r.link, none⟩

/-- A world in which the write of `cnn_page_content.html` fails; every other call succeeds. -/
def dumpWriteFails : World :=
  { nominalWorld fixtureTopStories with writeFileOk := false }

/-- A world whose first two calls of `page.goto` fail, whose third succeeds, and in which the
write of `cnn_page_content.html` then fails; every other call succeeds. -/
def retryThenDumpFails : World :=
  { failsFirst 2 with writeFileOk := false }

/-- A world in which the wait for the lead package times out; every other call succeeds. -/
def waitTimesOut : World :=
  { nominalWorld fixtureTopStories with waitForSelectorOk := false }

/-- The external calls of the debug dump when it fails: `page.content()` alone when that call
fails, `page.content()` and the write otherwise. -/
def failedDumpTrace (w : World) : List Event :=
  if w.contentOk then [.content, .writeFile "cnn_page_content.html"] else [.content]

/-! ## The output file -/

/-- The field names of a record object, in insertion order: `section`, `headline`, `link`, and
`date` when the record has one. -/
def HeadlineRecord.fields (r : HeadlineRecord) : List String :=
  ["section", "headline", "link"] ++ (if r.date.isSome then ["date"] else [])

/-- The content of a file written by `csvWriter.writeRecords`: the header ids of the writer and
the records, row after row. -/
structure CsvFile where
  header : List String
  records : List HeadlineRecord

/-- The effect of one external call on the CSV files: a successful `writeRecords` of a writer
created by `createObjectCsvWriter({ path, header })`, with no `append` option, replaces the
file at `path` by the header and the records; no other call of the scripts touches a CSV file.
What a failed write leaves is not modelled: the files are kept as they were. -/
def writeEffect (w : World) (files : String → Option CsvFile) :
    Event → String → Option CsvFile
  | .writeRecords path header records =>
    if w.writeRecordsOk then
      fun p => if p = path then some ⟨header, records⟩ else files p
    else files
  | _ => files

/-- The CSV files after the external calls of a trace, from the files before. -/
def filesAfter (w : World) (files : String → Option CsvFile) (trace : List Event) :
    String → Option CsvFile :=
  trace.foldl (writeEffect w) files

/-- No external call made so far is a `writeRecords`. -/
def State.noWrites (s : State) : Prop := ∀ ev ∈ s.trace, ev.isWriteRecords = false

/-- An asynchronous function that never calls `writeRecords`. -/
def Run.quiet {α : Type} (x : Run α) : Prop := ∀ s : State, s.noWrites → (x s).2.noWrites

/-- What `main` does with the result of `scrape` under the header ids `header`, in a run in
which `scrape` returns records: `main` returns normally and the fields of every record are the
header ids; when the records are not empty, `main` makes one more external call, the
`writeRecords` of all the records to `cnn_headlines.csv`, after which, if it succeeds, the file
holds the header and these records whatever it held before; when there is no record, `main`
makes no further call and leaves every CSV file as it was. -/
def writesCsv (main : World → Run Unit)
    (scrape : World → Run (Option (List HeadlineRecord))) (header : List String) (w : World) :
    Prop :=
  ∀ rs, (scrape w w.init).1 = .ok (some rs) →
    (main w w.init).1 = .ok ()
    ∧ (∀ r ∈ rs, r.fields = header)
    ∧ (rs ≠ [] →
      (main w w.init).2.trace
        = (scrape w w.init).2.trace ++ [.writeRecords "cnn_headlines.csv" header rs]
      ∧ (w.writeRecordsOk = true → ∀ files,
        filesAfter w files (main w w.init).2.trace "cnn_headlines.csv" = some ⟨header, rs⟩))
    ∧ (rs = [] →
      (main w w.init).2.trace = (scrape w w.init).2.trace
      ∧ ∀ files, filesAfter w files (main w w.init).2.trace = files)

/-- A page without any card. -/
def fixtureEmpty : Document :=
  ⟨.element "html" [] [] "" [.element "div" ["container_lead-package__cards-wrapper"] [] "" []]⟩

/-- A world in which `browser.close()` fails; every other call succeeds. -/
def closeFails : World :=
  { nominalWorld fixtureTopStories with closeOk := false }

/-- A file that is at `cnn_headlines.csv` before a run. -/
def staleFiles : String → Option CsvFile :=
  fun p => if p = "cnn_headlines.csv" then
    some ⟨["section", "headline", "link"], [⟨"Old", "Stale", "https://www.cnn.com/old", none⟩]⟩
  else none

/-! ## Lemmas on strings and on the extraction loops -/

theorem truthy_iff (s : String) : truthy s = true ↔ s ≠ "" := by
  cases s with
  | mk l =>
    cases l <;> simp [truthy, String.ext_iff]

theorem trimChars_idem (l : List Char) : trimChars (trimChars l) = trimChars l := by
  unfold trimChars
  have h1 : List.dropWhile isWhiteSpace
      (List.rdropWhile isWhiteSpace (List.dropWhile isWhiteSpace l))
      = List.rdropWhile isWhiteSpace (List.dropWhile isWhiteSpace l) := by
    rw [List.dropWhile_eq_self_iff]
    intro hl
    obtain ⟨t, ht⟩ := List.rdropWhile_prefix isWhiteSpace (l := List.dropWhile isWhiteSpace l)
    generalize hr : List.rdropWhile isWhiteSpace (List.dropWhile isWhiteSpace l) = r at hl ht
    cases r with
    | nil => simp at hl
    | cons x r' =>
      have h2 := List.dropWhile_idempotent (p := isWhiteSpace) (l := l)
      rw [← ht] at h2
      rw [List.dropWhile_eq_self_iff] at h2
      have h3 := h2 (by simp)
      simpa using h3
  rw [h1, List.rdropWhile_idempotent]

theorem trim_idem (s : String) : trim (trim s) = trim s := by
  simp [trim, trimChars_idem]

theorem extractHeadlineData_eq (cd : Option String) (hs : List HeadlineRecord) (el : Node)
    (label : String) :
    extractHeadlineData cd hs el label = hs ++ (validRecord cd label el).toList := by
  unfold extractHeadlineData validRecord
  cases h1 : el.querySelector headlineTextSel <;> cases h2 : el.querySelector containerLinkSel
    <;> simp
  rename_i h a
  by_cases c1 : trim h.textContent = "" <;> by_cases c2 : a.href = ""
    <;> simp [c1, c2, truthy_iff]

theorem forEachStory_eq (cd : Option String) (label : String) (stories : List Node)
    (hs : List HeadlineRecord) :
    forEachStory cd label stories hs = hs ++ validCards cd label stories := by
  unfold forEachStory validCards
  induction stories generalizing hs with
  | nil => simp
  | cons st rest ih =>
    rw [List.foldl_cons, ih, extractHeadlineData_eq, List.filterMap_cons]
    cases validRecord cd label st <;> simp

theorem forEachZone_eq (cd : Option String) (zones : List Node) (hs : List HeadlineRecord) :
    forEachZone cd zones hs = hs ++ zones.flatMap (zoneRecords cd) := by
  unfold forEachZone
  induction zones generalizing hs with
  | nil => simp
  | cons z rest ih =>
    rw [List.foldl_cons, ih, List.flatMap_cons]
    unfold zoneRecords
    cases hz : z.getAttribute "data-zone-label" with
    | none => simp
    | some lbl =>
      by_cases c1 : lbl = "" <;> by_cases c2 : lbl = "More Top Stories"
        <;> simp [c1, c2, truthy_iff, forEachStory_eq]

theorem validRecord_wellFormed (cd : Option String) (label : String) (card : Node)
    (r : HeadlineRecord) (h : validRecord cd label card = some r) :
    r.wellFormed ∧ r.«section» = label ∧ r.date = cd := by
  unfold validRecord at h
  split at h
  · split at h
    · rename_i c
      injection h with h
      subst h
      exact ⟨⟨c.1, trim_idem _, c.2⟩, rfl, rfl⟩
    · cases h
  · cases h

theorem validCards_mem (cd : Option String) (label : String) (cards : List Node)
    (r : HeadlineRecord) (h : r ∈ validCards cd label cards) :
    r.wellFormed ∧ r.«section» = label ∧ r.date = cd ∧
      ∃ card ∈ cards, validRecord cd label card = some r := by
  unfold validCards at h
  rw [List.mem_filterMap] at h
  obtain ⟨card, hc, hr⟩ := h
  obtain ⟨h1, h2, h3⟩ := validRecord_wellFormed cd label card r hr
  exact ⟨h1, h2, h3, card, hc, hr⟩

theorem Save_headlines_pageFunction_eq (d : Document) :
    Save_headlines.pageFunction d = .ok (topStoriesRecords none d
      ++ moreTopStoriesZoneRecords none d ++ labelledZoneRecords none d) := by
  unfold Save_headlines.pageFunction topStoriesRecords moreTopStoriesZoneRecords
    labelledZoneRecords
  simp only [forEachZone_eq]
  cases d.querySelector leadPackageSel <;> cases d.querySelector moreTopStoriesZoneSel
    <;> simp [forEachStory_eq] <;> rfl

theorem copy_pageFunction_eq (d : Document) :
    copy.pageFunction d = .ok (topStoriesRecords none d
      ++ moreTopStoriesZoneRecords none d ++ labelledZoneRecords none d) := by
  unfold copy.pageFunction topStoriesRecords moreTopStoriesZoneRecords labelledZoneRecords
  simp only [forEachZone_eq]
  cases d.querySelector leadPackageSel <;> cases d.querySelector moreTopStoriesZoneSel
    <;> simp [forEachStory_eq] <;> rfl

theorem more_top_stories_pageFunction_eq (cd : String) (d : Document) :
    more_top_stories.pageFunction cd d = .ok (topStoriesRecords (some cd) d
      ++ leadPlusRecords (some cd) d ++ labelledZoneRecords (some cd) d) := by
  unfold more_top_stories.pageFunction topStoriesRecords leadPlusRecords labelledZoneRecords
  simp only [forEachZone_eq]
  cases d.querySelector leadPackageSel
    <;> cases h : d.querySelectorAll leadPlusItemSel
    <;> simp [forEachStory_eq, validCards] <;> rfl

theorem cnn_scraper_pageFunction_eq (cd : String) (d : Document) :
    cnn_scraper.pageFunction cd d =
      if featuredTitleDangling d then .error .typeError
      else .ok (beforeFeatured (some cd) d ++ featuredRecords (some cd) d) := by
  unfold cnn_scraper.pageFunction featuredTitleDangling featuredRecords beforeFeatured
    topStoriesRecords leadPlusRecords dataSectionRecords missedItRecords
  generalize d.querySelectorAll leadPlusItemSel = items
  have e : ∀ hs : List HeadlineRecord,
      (if items.length != 0 then hs ++ validCards (some cd) "More Top Stories" items else hs)
        = hs ++ validCards (some cd) "More Top Stories" items := by
    intro hs
    cases items <;> simp [validCards]
  have e0 : (if items.length != 0 then validCards (some cd) "More Top Stories" items else [])
        = validCards (some cd) "More Top Stories" items := by
    cases items <;> simp [validCards]
  simp only [forEachStory_eq, e]
  cases d.querySelectorPath zoneTitleSel with
  | none =>
    cases d.querySelector leadPackageSel <;> cases d.querySelector missedItSel
      <;> simp only [List.nil_append, List.append_nil, List.append_assoc, e0]
      <;> rfl
  | some title =>
    cases h1 : includes title.1.textContent "Featured Sections"
      <;> cases h2 : closest title zoneInnerSel
      <;> cases d.querySelector leadPackageSel <;> cases d.querySelector missedItSel
      <;> simp only [List.nil_append, List.append_nil, List.append_assoc, e0, h1, h2]
      <;> simp <;> rfl

theorem pageEvaluate_fst (w : World) (pf : Document → Except Error (List HeadlineRecord))
    (s : State) :
    (pageEvaluate w pf s).1 = if w.evaluateOk then pf w.document else .error .evaluate := by
  unfold pageEvaluate call
  cases w.evaluateOk <;> simp

theorem pageEvaluate_snd (w : World) (pf : Document → Except Error (List HeadlineRecord))
    (s : State) :
    (pageEvaluate w pf s).2 = s.push w .evaluate 0 := by
  unfold pageEvaluate call
  cases w.evaluateOk <;> simp

theorem topStoriesRecords_mem (cd : Option String) (d : Document) (r : HeadlineRecord)
    (h : r ∈ topStoriesRecords cd d) :
    r.wellFormed ∧ r.«section» = "Top Stories" ∧ r.date = cd := by
  unfold topStoriesRecords at h
  split at h
  · obtain ⟨h1, h2, h3, _⟩ := validCards_mem _ _ _ _ h
    exact ⟨h1, h2, h3⟩
  · simp at h

theorem moreTopStoriesZoneRecords_mem (cd : Option String) (d : Document) (r : HeadlineRecord)
    (h : r ∈ moreTopStoriesZoneRecords cd d) :
    r.wellFormed ∧ r.«section» = "More Top Stories" ∧ r.date = cd := by
  unfold moreTopStoriesZoneRecords at h
  split at h
  · obtain ⟨h1, h2, h3, _⟩ := validCards_mem _ _ _ _ h
    exact ⟨h1, h2, h3⟩
  · simp at h

theorem missedItRecords_mem (cd : Option String) (d : Document) (r : HeadlineRecord)
    (h : r ∈ missedItRecords cd d) :
    r.wellFormed ∧ r.«section» = "In Case You Missed It" ∧ r.date = cd := by
  unfold missedItRecords at h
  split at h
  · obtain ⟨h1, h2, h3, _⟩ := validCards_mem _ _ _ _ h
    exact ⟨h1, h2, h3⟩
  · simp at h

theorem featuredRecords_mem (cd : Option String) (d : Document) (r : HeadlineRecord)
    (h : r ∈ featuredRecords cd d) :
    r.wellFormed ∧ r.«section» = "Featured Sections" ∧ r.date = cd := by
  unfold featuredRecords at h
  split at h
  · split at h
    · split at h
      · obtain ⟨h1, h2, h3, _⟩ := validCards_mem _ _ _ _ h
        exact ⟨h1, h2, h3⟩
      · simp at h
    · simp at h
  · simp at h

theorem zoneRecords_mem (cd : Option String) (zone : Node) (r : HeadlineRecord)
    (h : r ∈ zoneRecords cd zone) :
    r.wellFormed ∧ r.date = cd ∧ zone.getAttribute "data-zone-label" = some r.«section»
      ∧ r.«section» ≠ "" ∧ r.«section» ≠ "More Top Stories"
      ∧ ∃ card ∈ zone.querySelectorAll cardSel, validRecord cd r.«section» card = some r := by
  unfold zoneRecords at h
  split at h
  · rename_i label hl
    split at h
    · rename_i c
      obtain ⟨h1, h2, h3, h4⟩ := validCards_mem _ _ _ _ h
      subst h2
      exact ⟨h1, h3, hl, c.1, c.2, h4⟩
    · simp at h
  · simp at h

theorem labelledZoneRecords_mem (cd : Option String) (d : Document) (r : HeadlineRecord)
    (h : r ∈ labelledZoneRecords cd d) :
    ∃ zone ∈ d.querySelectorAll labelledZoneSel, r ∈ zoneRecords cd zone := by
  unfold labelledZoneRecords at h
  rw [List.mem_flatMap] at h
  exact h

theorem beforeFeatured_mem (cd : Option String) (d : Document) (r : HeadlineRecord)
    (h : r ∈ beforeFeatured cd d) : r.wellFormed ∧ r.date = cd := by
  unfold beforeFeatured leadPlusRecords dataSectionRecords at h
  simp only [List.mem_append] at h
  rcases h with (((((h | h) | h) | h) | h) | h) | h
  · exact ⟨(topStoriesRecords_mem _ _ _ h).1, (topStoriesRecords_mem _ _ _ h).2.2⟩
  · exact ⟨(validCards_mem _ _ _ _ h).1, (validCards_mem _ _ _ _ h).2.2.1⟩
  · exact ⟨(validCards_mem _ _ _ _ h).1, (validCards_mem _ _ _ _ h).2.2.1⟩
  · exact ⟨(validCards_mem _ _ _ _ h).1, (validCards_mem _ _ _ _ h).2.2.1⟩
  · exact ⟨(validCards_mem _ _ _ _ h).1, (validCards_mem _ _ _ _ h).2.2.1⟩
  · exact ⟨(validCards_mem _ _ _ _ h).1, (validCards_mem _ _ _ _ h).2.2.1⟩
  · exact ⟨(missedItRecords_mem _ _ _ h).1, (missedItRecords_mem _ _ _ h).2.2⟩

/-- Every record of the zone-iterating page functions is well formed and carries the date
handed to the page function. -/
theorem zoneVariant_mem (cd : Option String) (d : Document) (more : List HeadlineRecord)
    (hm : ∀ r ∈ more, r.wellFormed ∧ r.date = cd) (r : HeadlineRecord)
    (h : r ∈ topStoriesRecords cd d ++ more ++ labelledZoneRecords cd d) :
    r.wellFormed ∧ r.date = cd := by
  simp only [List.mem_append] at h
  rcases h with (h | h) | h
  · exact ⟨(topStoriesRecords_mem _ _ _ h).1, (topStoriesRecords_mem _ _ _ h).2.2⟩
  · exact hm r h
  · obtain ⟨z, _, hz⟩ := labelledZoneRecords_mem _ _ _ h
    exact ⟨(zoneRecords_mem _ _ _ hz).1, (zoneRecords_mem _ _ _ hz).2.1⟩

theorem Save_headlines_pageFunction_mem (d : Document) (rs : List HeadlineRecord)
    (h : Save_headlines.pageFunction d = .ok rs) (r : HeadlineRecord) (hr : r ∈ rs) :
    r.wellFormed ∧ r.date = none := by
  rw [Save_headlines_pageFunction_eq] at h
  injection h with h
  subst h
  exact zoneVariant_mem none d _
    (fun r h => ⟨(moreTopStoriesZoneRecords_mem _ _ _ h).1,
      (moreTopStoriesZoneRecords_mem _ _ _ h).2.2⟩) r hr

theorem copy_pageFunction_mem (d : Document) (rs : List HeadlineRecord)
    (h : copy.pageFunction d = .ok rs) (r : HeadlineRecord) (hr : r ∈ rs) :
    r.wellFormed ∧ r.date = none := by
  rw [copy_pageFunction_eq] at h
  injection h with h
  subst h
  exact zoneVariant_mem none d _
    (fun r h => ⟨(moreTopStoriesZoneRecords_mem _ _ _ h).1,
      (moreTopStoriesZoneRecords_mem _ _ _ h).2.2⟩) r hr

theorem more_top_stories_pageFunction_mem (cd : String) (d : Document)
    (rs : List HeadlineRecord) (h : more_top_stories.pageFunction cd d = .ok rs)
    (r : HeadlineRecord) (hr : r ∈ rs) : r.wellFormed ∧ r.date = some cd := by
  rw [more_top_stories_pageFunction_eq] at h
  injection h with h
  subst h
  exact zoneVariant_mem (some cd) d _
    (fun r h => ⟨(validCards_mem _ _ _ _ h).1, (validCards_mem _ _ _ _ h).2.2.1⟩) r hr

theorem cnn_scraper_pageFunction_mem (cd : String) (d : Document)
    (rs : List HeadlineRecord) (h : cnn_scraper.pageFunction cd d = .ok rs)
    (r : HeadlineRecord) (hr : r ∈ rs) : r.wellFormed ∧ r.date = some cd := by
  rw [cnn_scraper_pageFunction_eq] at h
  split at h
  · cases h
  · injection h with h
    subst h
    rw [List.mem_append] at hr
    rcases hr with hr | hr
    · exact beforeFeatured_mem _ _ _ hr
    · exact ⟨(featuredRecords_mem _ _ _ hr).1, (featuredRecords_mem _ _ _ hr).2.2⟩

/-- What `extractHeadlines` returns is what the page function returns on the DOM of the page. -/
theorem pageEvaluate_ok (w : World) (pf : Document → Except Error (List HeadlineRecord))
    (s : State) (rs : List HeadlineRecord) (h : (pageEvaluate w pf s).1 = .ok rs) :
    pf w.document = .ok rs := by
  rw [pageEvaluate_fst] at h
  split at h
  · exact h
  · cases h

/-! ## C1: only complete records are produced -/

/-- C1: in each of the four variants every record returned by `extractHeadlines` has a
non-empty headline that equals its own trim and a non-empty link; and `extractHeadlineData`
pushes exactly one record, built from the trimmed text of the first
`.container__headline-text` descendant and the `href` of the first `a.container__link`
descendant, when both are non-empty, and leaves the array as it is in every other case. -/
theorem C1_only_complete_records :
    (∀ (w : World) (s : State) (rs : List HeadlineRecord),
      ((Save_headlines.extractHeadlines w s).1 = .ok rs
        ∨ (copy.extractHeadlines w s).1 = .ok rs
        ∨ (more_top_stories.extractHeadlines w s).1 = .ok rs
        ∨ (cnn_scraper.extractHeadlines w s).1 = .ok rs) →
      ∀ r ∈ rs, r.headline ≠ "" ∧ trim r.headline = r.headline ∧ r.link ≠ "")
    ∧ (∀ (cd : Option String) (hs : List HeadlineRecord) (el : Node) (label : String),
      (∀ h a, el.querySelector headlineTextSel = some h →
        el.querySelector containerLinkSel = some a →
        trim h.textContent ≠ "" → a.href ≠ "" →
        extractHeadlineData cd hs el label = hs ++ [⟨label, trim h.textContent, a.href, cd⟩])
      ∧ (¬ (∃ h a, el.querySelector headlineTextSel = some h
            ∧ el.querySelector containerLinkSel = some a
            ∧ trim h.textContent ≠ "" ∧ a.href ≠ "") →
        extractHeadlineData cd hs el label = hs)) := by
  refine ⟨?_, ?_⟩
  · intro w s rs h r hr
    rcases h with h | h | h | h
    · exact (Save_headlines_pageFunction_mem _ rs (pageEvaluate_ok _ _ _ _ h) r hr).1
    · exact (copy_pageFunction_mem _ rs (pageEvaluate_ok _ _ _ _ h) r hr).1
    · exact (more_top_stories_pageFunction_mem _ _ rs (pageEvaluate_ok _ _ _ _ h) r hr).1
    · exact (cnn_scraper_pageFunction_mem _ _ rs (pageEvaluate_ok _ _ _ _ h) r hr).1
  · intro cd hs el label
    rw [extractHeadlineData_eq]
    unfold validRecord
    refine ⟨?_, ?_⟩
    · intro h a h1 h2 h3 h4
      simp [h1, h2, h3, h4]
    · intro hn
      cases h1 : el.querySelector headlineTextSel <;> cases h2 : el.querySelector containerLinkSel
        <;> simp
      rename_i h a
      rw [if_neg]
      · rfl
      · intro c
        exact hn ⟨h, a, h1, h2, c.1, c.2⟩

/-- C1 at the fixture: the records of the top-stories fixture are well formed, and a valid card
pushes its record. -/
theorem C1_only_complete_records_witness :
    (∀ r ∈ [(⟨"Top Stories", "First", "https://www.cnn.com/a", none⟩ : HeadlineRecord),
        ⟨"Top Stories", "Third", "https://www.cnn.com/c", none⟩],
      r.headline ≠ "" ∧ trim r.headline = r.headline ∧ r.link ≠ "")
    ∧ extractHeadlineData none [] (fixtureCard " First " "https://www.cnn.com/a") "Top Stories"
      = [] ++ [⟨"Top Stories", trim (Node.textContent
          (.element "span" ["container__headline-text"] [] "" [.text " First "])),
          Node.href (.element "a" ["container__link"] [("href", "https://www.cnn.com/a")]
            "https://www.cnn.com/a" []), none⟩] :=
  ⟨C1_only_complete_records.1 (nominalWorld fixtureTopStories)
      (nominalWorld fixtureTopStories).init _ (Or.inl rfl),
    (C1_only_complete_records.2 none [] (fixtureCard " First " "https://www.cnn.com/a")
      "Top Stories").1 _ _ rfl rfl (by decide) (by decide)⟩

/-! ## Lemmas on the navigation loop -/

theorem attempts_countP_goto (m : Nat) : (attempts m).countP Event.isGoto = m + 1 := by
  induction m with
  | zero => rfl
  | succ m ih =>
    simp only [attempts, List.countP_cons, ih]
    simp [gotoEvent, Event.isGoto]

theorem attempts_countP_delay (m : Nat) : (attempts m).countP Event.isDelay = m := by
  induction m with
  | zero => rfl
  | succ m ih =>
    simp only [attempts, List.countP_cons, ih]
    simp [gotoEvent, Event.isDelay]

theorem pageGoto_fst (w : World) (s : State) :
    (pageGoto w s).1
      = if w.gotoOk s.gotoCalls then .ok () else .error (.navigation s.gotoCalls) := rfl

theorem pageGoto_trace (w : World) (s : State) :
    (pageGoto w s).2.trace = s.trace ++ [gotoEvent] := rfl

theorem retryLoop_succ (w : World) (N fuel i : Nat) (s : State) (hi : i < N) :
    retryLoop w N (fuel + 1) i s =
      if w.gotoOk s.gotoCalls then (.ok (), (pageGoto w s).2)
      else if i = N - 1 then (.error (.navigation s.gotoCalls), (pageGoto w s).2)
      else retryLoop w N fuel (i + 1)
        (call w (.setTimeout 5000) true (.navigation s.gotoCalls) 5000 (pageGoto w s).2).2 := by
  simp only [retryLoop, hi, ↓reduceIte]
  cases hg : w.gotoOk s.gotoCalls <;> simp [pageGoto, call, hg]

/-- The retry loop from counter `i`, when `k` is the rank of its last attempt: every attempt
from `i` to `k - 1` fails, and attempt `k` succeeds or is the last one allowed. -/
theorem retryLoop_spec (w : World) (N : Nat) :
    ∀ (fuel i k : Nat) (s : State), s.gotoCalls = i → N - i ≤ fuel → i ≤ k → k < N →
      (∀ j, i ≤ j → j < k → w.gotoOk j = false) →
      (w.gotoOk k = true ∨ k = N - 1) →
      (retryLoop w N fuel i s).1 = (if w.gotoOk k then .ok () else .error (.navigation k))
      ∧ (retryLoop w N fuel i s).2.trace = s.trace ++ attempts (k - i) := by
  intro fuel
  induction fuel with
  | zero =>
    intro i k s _ hf hik hk
    omega
  | succ fuel ih =>
    intro i k s hs hf hik hk hfail hlast
    have hiN : i < N := by omega
    rw [retryLoop_succ w N fuel i s hiN, hs]
    rcases Nat.eq_or_lt_of_le hik with heq | hlt
    · subst heq
      cases hg : w.gotoOk i
      · have : i = N - 1 := by
          rcases hlast with h | h
          · rw [hg] at h; cases h
          · exact h
        simp [this, attempts, pageGoto_trace]
      · simp [attempts, pageGoto_trace]
    · have hg : w.gotoOk i = false := hfail i (Nat.le_refl _) hlt
      have hne : i ≠ N - 1 := by omega
      simp only [hg, hne, ↓reduceIte, Bool.false_eq_true]
      have hs2 : State.gotoCalls
          (call w (.setTimeout 5000) true (.navigation i) 5000 (pageGoto w s).2).2 = i + 1 := by
        unfold State.gotoCalls at hs ⊢
        simp [call, pageGoto, State.push, List.countP_append, Event.isGoto, hs]
      obtain ⟨h1, h2⟩ := ih (i + 1) k _ hs2 (by omega) (by omega) hk
        (fun j hj1 hj2 => hfail j (by omega) hj2) hlast
      refine ⟨h1, ?_⟩
      rw [h2]
      have : k - i = (k - (i + 1)) + 1 := by omega
      rw [this]
      simp [attempts, call, pageGoto, State.push, gotoEvent]

/-! ## Lemmas on the control flow -/

theorem bind_ok {α β : Type} (x : Run α) (f : α → Run β) (s s1 : State) (a : α)
    (h : x s = (.ok a, s1)) : (x >>= f) s = f a s1 := by
  show Run.bind x f s = _
  simp [Run.bind, h]

theorem bind_error {α β : Type} (x : Run α) (f : α → Run β) (s s1 : State) (e : Error)
    (h : x s = (.error e, s1)) : (x >>= f) s = (.error e, s1) := by
  show Run.bind x f s = _
  simp [Run.bind, h]

theorem tryFinally_close_trace {α : Type} (w : World) (x : Run α) (s : State) :
    (Run.tryFinally x (call w .close w.closeOk .close 0) s).2.trace
      = (x s).2.trace ++ [.close] := by
  unfold Run.tryFinally call
  cases w.closeOk <;> simp [State.push]

theorem tryFinally_close_fst {α : Type} (w : World) (x : Run α) (s : State) :
    (Run.tryFinally x (call w .close w.closeOk .close 0) s).1
      = if w.closeOk then (x s).1 else .error .close := by
  unfold Run.tryFinally call
  cases w.closeOk <;> simp

theorem tryCatch_none_fst {α : Type} (x : Run (Option α)) (s : State) :
    (Run.tryCatch x (fun _ => Run.pure none) s).1
      = caught (x s).1 := by
  unfold Run.tryCatch Run.pure
  rcases h : x s with ⟨r, s1⟩
  cases r <;> simp [caught]

theorem tryCatch_none_snd {α : Type} (x : Run (Option α)) (s : State) :
    (Run.tryCatch x (fun _ => Run.pure none) s).2 = (x s).2 := by
  unfold Run.tryCatch Run.pure
  rcases h : x s with ⟨r, s1⟩
  cases r <;> simp

theorem run_bind {α β : Type} (x : Run α) (f : α → Run β) : x >>= f = Run.bind x f := rfl

theorem run_pure {α : Type} (a : α) : (pure a : Run α) = Run.pure a := rfl

theorem setupBrowser_ok (w : World) (s : State) (h1 : w.launchOk = true)
    (h2 : w.newPageOk = true) (h3 : w.authenticateOk = true) :
    (setupBrowser w s).1 = .ok ()
      ∧ (setupBrowser w s).2.trace = s.trace ++ [.launch, .newPage, .authenticate] := by
  simp [setupBrowser, run_bind, Run.bind, call, State.push, h1, h2, h3]

theorem copy_setupBrowser_ok (w : World) (s : State) (h1 : w.launchOk = true)
    (h2 : w.newPageOk = true) :
    (copy.setupBrowser w s).1 = .ok ()
      ∧ (copy.setupBrowser w s).2.trace = s.trace ++ [.launch, .newPage] := by
  simp [copy.setupBrowser, run_bind, Run.bind, call, State.push, h1, h2]

/-- The function `scrapeCNNHomepage` once `setupBrowser` has returned: the guarded block, then
`browser.close()`. -/
theorem scrape_after_setup (ex : World → Run (List HeadlineRecord)) (w : World) (N : Nat)
    (s : State) (h : (setupBrowser w s).1 = .ok ()) :
    scrapeCNNHomepageWith ex w N s
      = Run.tryFinally (Run.tryCatch (tryBlock ex w N) (fun _ => Run.pure none))
          (call w .close w.closeOk .close 0) (setupBrowser w s).2 := by
  unfold scrapeCNNHomepageWith
  rw [run_bind]
  unfold Run.bind
  rcases hs : setupBrowser w s with ⟨r, s1⟩
  rw [hs] at h
  cases r with
  | error e => cases h
  | ok u => rfl

theorem scrape_setup_error (ex : World → Run (List HeadlineRecord)) (w : World) (N : Nat)
    (s : State) (e : Error) (h : (setupBrowser w s).1 = .error e) :
    scrapeCNNHomepageWith ex w N s = (.error e, (setupBrowser w s).2) := by
  unfold scrapeCNNHomepageWith
  rw [run_bind]
  unfold Run.bind
  rcases hs : setupBrowser w s with ⟨r, s1⟩
  rw [hs] at h
  cases r with
  | error e => cases h; rfl
  | ok u => cases h

theorem push_trace (s : State) (w : World) (ev : Event) (extra : Nat) :
    (s.push w ev extra).trace = s.trace ++ [ev] := rfl

theorem call_ok (w : World) (ev : Event) (ok : Bool) (err : Error) (extra : Nat) (s : State)
    (h : ok = true) : call w ev ok err extra s = (.ok (), s.push w ev extra) := by
  simp [call, h]

theorem call_error (w : World) (ev : Event) (ok : Bool) (err : Error) (extra : Nat) (s : State)
    (h : ok = false) : call w ev ok err extra s = (.error err, s.push w ev extra) := by
  simp [call, h]

theorem waitForLeadPackage_eq (w : World) (s : State) :
    waitForLeadPackage w s = (.ok (), s.push w (.waitForSelector 10000) 0) := by
  cases hwait : w.waitForSelectorOk
    <;> simp [waitForLeadPackage, Run.tryCatch, Run.pure, call, hwait]

/-- The guarded block when the retry loop raises an error. -/
theorem tryBlock_loop_error (ex : World → Run (List HeadlineRecord)) (w : World) (N : Nat)
    (s : State) (e : Error)
    (h : (retryLoop w N N 0 (s.push w (.setDefaultNavigationTimeout 120000) 0)).1 = .error e) :
    tryBlock ex w N s
      = (.error e, (retryLoop w N N 0 (s.push w (.setDefaultNavigationTimeout 120000) 0)).2) := by
  unfold tryBlock
  rw [bind_ok _ _ s (s.push w (.setDefaultNavigationTimeout 120000) 0) () (by rfl)]
  exact bind_error _ _ _ _ e (Prod.ext h rfl)

/-- The state in which `extractHeadlines` is called when the retry loop ended in `s1` and the
debug dump succeeded. -/
theorem tryBlock_ok (ex : World → Run (List HeadlineRecord)) (w : World) (N : Nat)
    (s : State)
    (h : (retryLoop w N N 0 (s.push w (.setDefaultNavigationTimeout 120000) 0)).1 = .ok ())
    (hc : w.contentOk = true) (hw : w.writeFileOk = true) :
    tryBlock ex w N s
      = ((ex w ((((retryLoop w N N 0 (s.push w (.setDefaultNavigationTimeout 120000) 0)).2.push
            w .content 0).push w (.writeFile "cnn_page_content.html") 0).push
            w (.waitForSelector 10000) 0)).1.map some,
         (ex w ((((retryLoop w N N 0 (s.push w (.setDefaultNavigationTimeout 120000) 0)).2.push
            w .content 0).push w (.writeFile "cnn_page_content.html") 0).push
            w (.waitForSelector 10000) 0)).2) := by
  unfold tryBlock
  rw [bind_ok _ _ s (s.push w (.setDefaultNavigationTimeout 120000) 0) () (by rfl)]
  rw [bind_ok _ _ _ _ () (Prod.ext h rfl)]
  rw [bind_ok _ _ _ _ () (call_ok _ _ _ _ _ _ hc)]
  rw [bind_ok _ _ _ _ () (call_ok _ _ _ _ _ _ hw)]
  rw [bind_ok _ _ _ _ () (waitForLeadPackage_eq _ _)]
  rw [run_bind]
  unfold Run.bind
  rcases hx : ex w _ with ⟨r, s2⟩
  cases r <;> rfl

/-! ## Lemmas on whole runs -/

theorem loopStart_trace (w : World) (h1 : w.launchOk = true) (h2 : w.newPageOk = true)
    (h3 : w.authenticateOk = true) : (loopStart w).trace = setupTrace := by
  unfold loopStart
  rw [push_trace, (setupBrowser_ok w w.init h1 h2 h3).2]
  rfl

theorem loopStart_gotoCalls (w : World) (h1 : w.launchOk = true) (h2 : w.newPageOk = true)
    (h3 : w.authenticateOk = true) : (loopStart w).gotoCalls = 0 := by
  unfold State.gotoCalls
  rw [loopStart_trace w h1 h2 h3]
  rfl

/-- A run whose setup succeeds: the outcome and the trace in terms of the guarded block. -/
theorem scrape_run (ex : World → Run (List HeadlineRecord)) (w : World) (N : Nat)
    (h1 : w.launchOk = true) (h2 : w.newPageOk = true) (h3 : w.authenticateOk = true) :
    (scrapeCNNHomepageWith ex w N w.init).1
        = (if w.closeOk then caught (tryBlock ex w N (setupBrowser w w.init).2).1
          else .error .close)
    ∧ (scrapeCNNHomepageWith ex w N w.init).2.trace
        = (tryBlock ex w N (setupBrowser w w.init).2).2.trace ++ [.close] := by
  rw [scrape_after_setup ex w N w.init (setupBrowser_ok w w.init h1 h2 h3).1,
    tryFinally_close_fst, tryFinally_close_trace, tryCatch_none_fst, tryCatch_none_snd]
  exact ⟨rfl, rfl⟩

/-- A run in which every allowed attempt fails. -/
theorem scrape_all_fail (ex : World → Run (List HeadlineRecord)) (w : World) (N : Nat)
    (hN : 1 ≤ N) (h1 : w.launchOk = true) (h2 : w.newPageOk = true)
    (h3 : w.authenticateOk = true) (hfail : ∀ j, j < N → w.gotoOk j = false) :
    (retryLoop w N N 0 (loopStart w)).1 = .error (.navigation (N - 1))
    ∧ (scrapeCNNHomepageWith ex w N w.init).1
        = (if w.closeOk then .ok none else .error .close)
    ∧ (scrapeCNNHomepageWith ex w N w.init).2.trace
        = setupTrace ++ attempts (N - 1) ++ [.close] := by
  obtain ⟨l1, l2⟩ := retryLoop_spec w N N 0 (N - 1) (loopStart w)
    (loopStart_gotoCalls w h1 h2 h3) (by omega) (by omega) (by omega)
    (fun j _ hj => hfail j (by omega)) (Or.inr rfl)
  rw [hfail (N - 1) (by omega)] at l1
  simp only [Bool.false_eq_true, ↓reduceIte] at l1
  rw [loopStart_trace w h1 h2 h3, Nat.sub_zero] at l2
  have hb := tryBlock_loop_error ex w N (setupBrowser w w.init).2 _ l1
  obtain ⟨r1, r2⟩ := scrape_run ex w N h1 h2 h3
  refine ⟨l1, ?_, ?_⟩
  · rw [r1, hb]
    rfl
  · rw [r2, hb]
    exact congrArg (· ++ [Event.close]) l2

/-- A run whose attempt of rank `k < N` is the first to succeed and whose debug dump
succeeds. -/
theorem scrape_success (ex : World → Run (List HeadlineRecord)) (w : World) (N k : Nat)
    (hk : k < N) (h1 : w.launchOk = true) (h2 : w.newPageOk = true)
    (h3 : w.authenticateOk = true) (hfail : ∀ j, j < k → w.gotoOk j = false)
    (hok : w.gotoOk k = true) (hc : w.contentOk = true) (hw : w.writeFileOk = true) :
    (retryLoop w N N 0 (loopStart w)).1 = .ok ()
    ∧ (retryLoop w N N 0 (loopStart w)).2.trace = setupTrace ++ attempts k
    ∧ (extractionStart w (retryLoop w N N 0 (loopStart w)).2).trace
        = setupTrace ++ attempts k ++ dumpTrace
    ∧ (scrapeCNNHomepageWith ex w N w.init).1
        = (if w.closeOk then
            returned (ex w (extractionStart w (retryLoop w N N 0 (loopStart w)).2)).1
          else .error .close)
    ∧ (scrapeCNNHomepageWith ex w N w.init).2.trace
        = (ex w (extractionStart w (retryLoop w N N 0 (loopStart w)).2)).2.trace
            ++ [.close] := by
  obtain ⟨l1, l2⟩ := retryLoop_spec w N N 0 k (loopStart w)
    (loopStart_gotoCalls w h1 h2 h3) (by omega) (by omega) hk
    (fun j _ hj => hfail j hj) (Or.inl hok)
  rw [hok] at l1
  simp only [↓reduceIte] at l1
  rw [loopStart_trace w h1 h2 h3, Nat.sub_zero] at l2
  have hb := tryBlock_ok ex w N (setupBrowser w w.init).2 l1 hc hw
  obtain ⟨r1, r2⟩ := scrape_run ex w N h1 h2 h3
  refine ⟨l1, l2, ?_, ?_, ?_⟩
  · simp only [extractionStart, push_trace, l2, dumpTrace, List.append_assoc]
    rfl
  · rw [r1, hb]
    simp only [extractionStart, loopStart]
    cases (ex w _).1 <;> rfl
  · rw [r2, hb]
    rfl

theorem copy_scrape_run (w : World) (h1 : w.launchOk = true) (h2 : w.newPageOk = true) :
    (copy.scrapeCNNHomepage w w.init).1
        = (if w.closeOk then caught (copy.tryBlock w (copy.setupBrowser w w.init).2).1
          else .error .close)
    ∧ (copy.scrapeCNNHomepage w w.init).2.trace
        = (copy.tryBlock w (copy.setupBrowser w w.init).2).2.trace ++ [.close] := by
  have hs := (copy_setupBrowser_ok w w.init h1 h2).1
  have e : copy.scrapeCNNHomepage w w.init
      = Run.tryFinally (Run.tryCatch (copy.tryBlock w) (fun _ => Run.pure none))
          (call w .close w.closeOk .close 0) (copy.setupBrowser w w.init).2 := by
    unfold copy.scrapeCNNHomepage
    rw [run_bind]
    unfold Run.bind
    rcases hx : copy.setupBrowser w w.init with ⟨r, s1⟩
    rw [hx] at hs
    cases r with
    | error e => cases hs
    | ok u => rfl
  rw [e, tryFinally_close_fst, tryFinally_close_trace, tryCatch_none_fst, tryCatch_none_snd]
  exact ⟨rfl, rfl⟩

/-- The single navigation attempt of `copy.js` fails: the guarded block raises its error after
two external calls. -/
theorem copy_tryBlock_fail (w : World) (h1 : w.launchOk = true) (h2 : w.newPageOk = true)
    (hg : w.gotoOk 0 = false) :
    (copy.tryBlock w (copy.setupBrowser w w.init).2).1 = .error (.navigation 0)
    ∧ (copy.tryBlock w (copy.setupBrowser w w.init).2).2.trace
        = [.launch, .newPage, .setDefaultNavigationTimeout 60000,
            .goto "https://www.cnn.com/" "networkidle2" 60000] := by
  have ht := (copy_setupBrowser_ok w w.init h1 h2).2
  have hc : State.gotoCalls
      ((copy.setupBrowser w w.init).2.push w (.setDefaultNavigationTimeout 60000) 0) = 0 := by
    unfold State.gotoCalls
    rw [push_trace, ht]
    rfl
  unfold copy.tryBlock
  rw [bind_ok _ _ _ ((copy.setupBrowser w w.init).2.push w
    (.setDefaultNavigationTimeout 60000) 0) () (by rfl)]
  rw [bind_error _ _ _ _ (.navigation 0) (by rw [hc]; exact call_error _ _ _ _ _ _ hg)]
  refine ⟨rfl, ?_⟩
  simp only [push_trace, ht]
  rfl

theorem mainWith_no_records (sc : World → Run (Option (List HeadlineRecord)))
    (st : World → List HeadlineRecord → String → Run Unit) (w : World) (s : State)
    (h : ∀ rs, (sc w s).1 = .ok (some rs) → rs = []) :
    (mainWith sc st w s).2 = (sc w s).2 := by
  unfold mainWith Run.tryCatch
  rw [run_bind]
  unfold Run.bind
  rcases hx : sc w s with ⟨r, s1⟩
  rw [hx] at h
  cases r with
  | error e => rfl
  | ok o =>
    cases o with
    | none => rfl
    | some rs =>
      have := h rs rfl
      subst this
      rfl

theorem mainWith_trace (sc : World → Run (Option (List HeadlineRecord)))
    (header : List String) (w : World) (s : State) :
    ∃ extra, (mainWith sc (storeDataInCSVWith header) w s).2.trace
      = (sc w s).2.trace ++ extra := by
  unfold mainWith Run.tryCatch
  rw [run_bind]
  unfold Run.bind
  rcases hx : sc w s with ⟨r, s1⟩
  cases r with
  | error e => exact ⟨[], by simp [Run.pure]⟩
  | ok o =>
    cases o with
    | none => exact ⟨[], by simp [Run.pure]⟩
    | some rs =>
      by_cases hl : rs.length > 0
      · refine ⟨[.writeRecords "cnn_headlines.csv" header rs], ?_⟩
        cases hw : w.writeRecordsOk
          <;> simp [hl, storeDataInCSVWith, Run.tryCatch, call, hw, Run.pure, State.push]
      · exact ⟨[], by simp [hl, Run.pure]⟩

theorem attempts_mem (m : Nat) (ev : Event) (h : ev ∈ attempts m) :
    ev = gotoEvent ∨ ev = .setTimeout 5000 := by
  induction m with
  | zero =>
    simp only [attempts, List.mem_singleton] at h
    exact Or.inl h
  | succ m ih =>
    simp only [attempts, List.mem_cons] at h
    rcases h with h | h | h
    · exact Or.inl h
    · exact Or.inr h
    · exact ih h

/-- A run completes with the extracted records when the attempt of rank `k < N` is the first to
succeed, every other call succeeds and the page function returns. -/
theorem completes (ex : World → Run (List HeadlineRecord)) (w : World) (N k : Nat)
    (hk : k < N) (h1 : w.launchOk = true) (h2 : w.newPageOk = true)
    (h3 : w.authenticateOk = true) (hfail : ∀ j, j < k → w.gotoOk j = false)
    (hok : w.gotoOk k = true) (hc : w.contentOk = true) (hw : w.writeFileOk = true)
    (he : w.evaluateOk = true) (hcl : w.closeOk = true)
    (hex : ∀ s, ∃ pf rs, ex w s = pageEvaluate w pf s ∧ pf w.document = .ok rs) :
    completesWithRecords (scrapeCNNHomepageWith ex) ex w N k := by
  obtain ⟨_, _, t3, r1, r2⟩ := scrape_success ex w N k hk h1 h2 h3 hfail hok hc hw
  obtain ⟨pf, rs, e1, e2⟩ := hex (extractionStart w (retryLoop w N N 0 (loopStart w)).2)
  have hr : (ex w (extractionStart w (retryLoop w N N 0 (loopStart w)).2)).1 = .ok rs := by
    rw [e1, pageEvaluate_fst, he, if_pos rfl, e2]
  refine ⟨rs, hr, ?_, ?_⟩
  · rw [r1, hr, hcl]
    rfl
  · rw [r2, e1, pageEvaluate_snd, push_trace, t3]
    simp

/-! ## C2: a navigation that never succeeds -/

/-- C2 (as amended): for every retry count `N ≥ 1`, when the setup succeeds and all `N` calls
of `page.goto` fail, the retry loop raises the error of the last attempt, the handler of
`scrapeCNNHomepage(N)` catches it and the function returns `undefined` once the browser is
closed (the error of `browser.close()` when that fails); the external calls are the setup,
the `N` attempts with `N - 1` delays and `browser.close()`, so the extraction is never invoked;
and with the default retry count `main` writes no CSV file. -/
theorem C2_navigation_failure_is_caught (w : World) (N : Nat) (hN : 1 ≤ N)
    (hl : w.launchOk = true) (hp : w.newPageOk = true) (ha : w.authenticateOk = true)
    (hfail : ∀ j, j < N → w.gotoOk j = false) :
    (retryLoop w N N 0 (loopStart w)).1 = .error (.navigation (N - 1))
    ∧ (Save_headlines.scrapeCNNHomepage w N w.init).1
        = (if w.closeOk then .ok none else .error .close)
    ∧ (Save_headlines.scrapeCNNHomepage w N w.init).2.trace
        = setupTrace ++ attempts (N - 1) ++ [.close]
    ∧ Event.evaluate ∉ (Save_headlines.scrapeCNNHomepage w N w.init).2.trace
    ∧ (N = defaultRetries →
        ∀ ev ∈ (Save_headlines.main w w.init).2.trace, ev.isWriteRecords = false) := by
  obtain ⟨a1, a2, a3⟩ := scrape_all_fail Save_headlines.extractHeadlines w N hN hl hp ha hfail
  have hmem : ∀ ev ∈ setupTrace ++ attempts (N - 1) ++ [Event.close],
      ev ≠ .evaluate ∧ ev.isWriteRecords = false := by
    intro ev hev
    simp only [List.mem_append, List.mem_singleton] at hev
    rcases hev with (hev | hev) | hev
    · simp only [setupTrace, List.mem_cons, List.mem_singleton, List.not_mem_nil,
        or_false] at hev
      rcases hev with h | h | h | h <;> subst h <;> exact ⟨by simp, rfl⟩
    · rcases attempts_mem _ _ hev with h | h <;> subst h <;> exact ⟨by simp [gotoEvent], rfl⟩
    · subst hev
      exact ⟨by simp, rfl⟩
  refine ⟨a1, a2, a3, ?_, ?_⟩
  · intro hmemEv
    have : Event.evaluate ∈ setupTrace ++ attempts (N - 1) ++ [Event.close] := by
      rw [← a3]
      exact hmemEv
    exact (hmem _ this).1 rfl
  · intro hd ev hev
    subst hd
    have hm : (Save_headlines.main w w.init).2
        = (Save_headlines.scrapeCNNHomepage w defaultRetries w.init).2 := by
      apply mainWith_no_records
      intro rs hrs
      have a2' : (Save_headlines.scrapeCNNHomepage w defaultRetries w.init).1
          = (if w.closeOk then .ok none else .error .close) := a2
      rw [a2'] at hrs
      cases hcl : w.closeOk <;> rw [hcl] at hrs <;> simp at hrs
    rw [hm] at hev
    have a3' : (Save_headlines.scrapeCNNHomepage w defaultRetries w.init).2.trace
        = setupTrace ++ attempts (defaultRetries - 1) ++ [.close] := a3
    rw [a3'] at hev
    exact (hmem ev hev).2

/-- C2 at a concrete world: with the default retry count, in the world whose navigation never
succeeds, the loop raises the error of the third attempt and the run makes nine external
calls, none of them the extraction. -/
theorem C2_navigation_failure_is_caught_witness :
    (retryLoop navigationDown 3 3 0 (loopStart navigationDown)).1 = .error (.navigation (3 - 1))
    ∧ (Save_headlines.scrapeCNNHomepage navigationDown 3 navigationDown.init).1
        = (if navigationDown.closeOk then .ok none else .error .close)
    ∧ (Save_headlines.scrapeCNNHomepage navigationDown 3 navigationDown.init).2.trace
        = setupTrace ++ attempts (3 - 1) ++ [.close]
    ∧ Event.evaluate ∉ (Save_headlines.scrapeCNNHomepage navigationDown 3
        navigationDown.init).2.trace
    ∧ (3 = defaultRetries → ∀ ev ∈ (Save_headlines.main navigationDown
        navigationDown.init).2.trace, ev.isWriteRecords = false) :=
  C2_navigation_failure_is_caught navigationDown 3 (by decide) rfl rfl rfl (fun _ _ => rfl)

/-- C2 as stated fails: in the world whose navigation never succeeds, all three calls of
`page.goto` fail and `scrapeCNNHomepage(3)` returns `undefined` normally; it does not raise the
error of the last attempt. -/
theorem C2_counterexample :
    (∀ j, j < 3 → navigationDown.gotoOk j = false)
    ∧ (Save_headlines.scrapeCNNHomepage navigationDown 3 navigationDown.init).1 = .ok none
    ∧ (Save_headlines.scrapeCNNHomepage navigationDown 3 navigationDown.init).1
        ≠ .error (.navigation 2)
    ∧ (Save_headlines.scrapeCNNHomepage navigationDown 3 navigationDown.init).2.gotoCalls = 3 :=
  ⟨fun _ _ => rfl, rfl, by rw [show (Save_headlines.scrapeCNNHomepage navigationDown 3
      navigationDown.init).1 = .ok none from rfl]; simp, rfl⟩

/-! ## C3: the retry loop -/

theorem Save_headlines_hex (w : World) :
    ∀ s, ∃ pf rs, Save_headlines.extractHeadlines w s = pageEvaluate w pf s
      ∧ pf w.document = .ok rs :=
  fun _ => ⟨_, _, rfl, Save_headlines_pageFunction_eq w.document⟩

theorem more_top_stories_hex (w : World) :
    ∀ s, ∃ pf rs, more_top_stories.extractHeadlines w s = pageEvaluate w pf s
      ∧ pf w.document = .ok rs :=
  fun _ => ⟨_, _, rfl, more_top_stories_pageFunction_eq _ w.document⟩

theorem cnn_scraper_hex (w : World) (h : featuredTitleDangling w.document = false) :
    ∀ s, ∃ pf rs, cnn_scraper.extractHeadlines w s = pageEvaluate w pf s
      ∧ pf w.document = .ok rs := by
  intro s
  refine ⟨cnn_scraper.pageFunction (isoDate s.now),
    beforeFeatured (some (isoDate s.now)) w.document
      ++ featuredRecords (some (isoDate s.now)) w.document, rfl, ?_⟩
  rw [cnn_scraper_pageFunction_eq, h]
  rfl

theorem loop_counts (w : World) (N m : Nat)
    (h : (retryLoop w N N 0 (loopStart w)).2.trace = setupTrace ++ attempts m) :
    (retryLoop w N N 0 (loopStart w)).2.gotoCalls = m + 1
    ∧ (retryLoop w N N 0 (loopStart w)).2.trace.countP Event.isDelay = m := by
  unfold State.gotoCalls
  rw [h, List.countP_append, List.countP_append, attempts_countP_goto, attempts_countP_delay]
  exact ⟨by simp [setupTrace, Event.isGoto], by simp [setupTrace, Event.isDelay]⟩

/-- C3 (as amended): for every retry count `N ≥ 1` and every sequence of navigation outcomes, in
a run whose setup succeeded: when `k` attempts fail before the first success, the loop makes the
calls of `min k (N - 1)` failed attempts, each followed by one delay of 5000 ms, and one last
attempt with no delay after it, that is `min (k + 1) N` calls of `page.goto`; when no attempt
succeeds it makes `N` calls with `N - 1` delays; when the first `N - 1` attempts fail and the
`N`-th succeeds, and `page.content()`, the write of the debug dump, `page.evaluate` and
`browser.close()` succeed, `scrapeCNNHomepage(N)` of `Save_headlines.js`,
`more_top_stories.js` and `cnn_scraper.js` returns the records `extractHeadlines` returned
(for `cnn_scraper.js` when its page function returns, that is when the `Featured Sections`
title is not there without a `.zone__inner` around it); and the default of `N` is 3. -/
theorem C3_retry_loop (w : World) (N : Nat) (hN : 1 ≤ N) (hl : w.launchOk = true)
    (hp : w.newPageOk = true) (ha : w.authenticateOk = true) :
    (∀ k, (∀ j, j < k → w.gotoOk j = false) → w.gotoOk k = true →
      (retryLoop w N N 0 (loopStart w)).2.trace = setupTrace ++ attempts (min k (N - 1))
      ∧ (retryLoop w N N 0 (loopStart w)).2.gotoCalls = min (k + 1) N
      ∧ (retryLoop w N N 0 (loopStart w)).2.trace.countP Event.isDelay = min k (N - 1))
    ∧ ((∀ j, j < N → w.gotoOk j = false) →
      (retryLoop w N N 0 (loopStart w)).2.trace = setupTrace ++ attempts (N - 1)
      ∧ (retryLoop w N N 0 (loopStart w)).2.gotoCalls = N
      ∧ (retryLoop w N N 0 (loopStart w)).2.trace.countP Event.isDelay = N - 1)
    ∧ ((∀ j, j < N - 1 → w.gotoOk j = false) → w.gotoOk (N - 1) = true →
      w.contentOk = true → w.writeFileOk = true → w.evaluateOk = true → w.closeOk = true →
      completesWithRecords Save_headlines.scrapeCNNHomepage Save_headlines.extractHeadlines
        w N (N - 1)
      ∧ completesWithRecords more_top_stories.scrapeCNNHomepage
        more_top_stories.extractHeadlines w N (N - 1)
      ∧ (featuredTitleDangling w.document = false →
        completesWithRecords cnn_scraper.scrapeCNNHomepage cnn_scraper.extractHeadlines
          w N (N - 1)))
    ∧ defaultRetries = 3 := by
  have hall : (∀ j, j < N → w.gotoOk j = false) →
      (retryLoop w N N 0 (loopStart w)).2.trace = setupTrace ++ attempts (N - 1) := by
    intro hfail
    have l2 := (retryLoop_spec w N N 0 (N - 1) (loopStart w)
      (loopStart_gotoCalls w hl hp ha) (by omega) (by omega) (by omega)
      (fun j _ hj => hfail j (by omega)) (Or.inr rfl)).2
    rw [loopStart_trace w hl hp ha, Nat.sub_zero] at l2
    exact l2
  refine ⟨?_, ?_, ?_, rfl⟩
  · intro k hfail hok
    have ht : (retryLoop w N N 0 (loopStart w)).2.trace
        = setupTrace ++ attempts (min k (N - 1)) := by
      by_cases hk : k < N
      · have l2 := (retryLoop_spec w N N 0 k (loopStart w)
          (loopStart_gotoCalls w hl hp ha) (by omega) (by omega) hk
          (fun j _ hj => hfail j hj) (Or.inl hok)).2
        rw [loopStart_trace w hl hp ha, Nat.sub_zero] at l2
        rw [l2, Nat.min_eq_left (by omega)]
      · rw [hall (fun j hj => hfail j (by omega)), Nat.min_eq_right (by omega)]
    obtain ⟨c1, c2⟩ := loop_counts w N _ ht
    refine ⟨ht, ?_, c2⟩
    rw [c1]
    omega
  · intro hfail
    obtain ⟨c1, c2⟩ := loop_counts w N _ (hall hfail)
    refine ⟨hall hfail, ?_, c2⟩
    rw [c1]
    omega
  · intro hfail hok hc hw he hcl
    exact ⟨completes _ w N (N - 1) (by omega) hl hp ha hfail hok hc hw he hcl
        (Save_headlines_hex w),
      completes _ w N (N - 1) (by omega) hl hp ha hfail hok hc hw he hcl
        (more_top_stories_hex w),
      fun hd => completes _ w N (N - 1) (by omega) hl hp ha hfail hok hc hw he hcl
        (cnn_scraper_hex w hd)⟩

/-- C3 at a concrete world: with `N = 3`, two failed attempts and a third that succeeds, the
three variants complete with the extracted records. -/
theorem C3_retry_loop_witness :
    (failsFirst 2).gotoOk 0 = false ∧ (failsFirst 2).gotoOk 1 = false
    ∧ (failsFirst 2).gotoOk 2 = true
    ∧ (retryLoop (failsFirst 2) 3 3 0 (loopStart (failsFirst 2))).2.gotoCalls = min (2 + 1) 3
    ∧ completesWithRecords Save_headlines.scrapeCNNHomepage Save_headlines.extractHeadlines
        (failsFirst 2) 3 (3 - 1)
    ∧ completesWithRecords cnn_scraper.scrapeCNNHomepage cnn_scraper.extractHeadlines
        (failsFirst 2) 3 (3 - 1) :=
  ⟨rfl, rfl, rfl,
    ((C3_retry_loop (failsFirst 2) 3 (by decide) rfl rfl rfl).1 2
      (fun j hj => by interval_cases j <;> rfl) rfl).2.1,
    ((C3_retry_loop (failsFirst 2) 3 (by decide) rfl rfl rfl).2.2.1
      (fun j hj => by interval_cases j <;> rfl) rfl rfl rfl rfl rfl).1,
    ((C3_retry_loop (failsFirst 2) 3 (by decide) rfl rfl rfl).2.2.1
      (fun j hj => by interval_cases j <;> rfl) rfl rfl rfl rfl rfl).2.2 rfl⟩

/-- C3 as stated fails in its last part: with `N = 3`, in the world whose first two navigation
attempts fail and whose third succeeds, the loop makes its three calls of `page.goto` and two
delays, and then the write of `cnn_page_content.html` fails; the error is caught,
`extractHeadlines` is never called and `scrapeCNNHomepage(3)` of `Save_headlines.js` returns
`undefined`, not the records of the page. -/
theorem C3_counterexample :
    retryThenDumpFails.gotoOk 0 = false ∧ retryThenDumpFails.gotoOk 1 = false
    ∧ retryThenDumpFails.gotoOk 2 = true
    ∧ (Save_headlines.scrapeCNNHomepage retryThenDumpFails 3
        retryThenDumpFails.init).2.gotoCalls = 3
    ∧ (Save_headlines.scrapeCNNHomepage retryThenDumpFails 3
        retryThenDumpFails.init).2.trace.countP Event.isDelay = 2
    ∧ (Save_headlines.scrapeCNNHomepage retryThenDumpFails 3
        retryThenDumpFails.init).2.trace.count Event.evaluate = 0
    ∧ (Save_headlines.scrapeCNNHomepage retryThenDumpFails 3
        retryThenDumpFails.init).1 = .ok none
    ∧ Save_headlines.pageFunction retryThenDumpFails.document
      = .ok [⟨"Top Stories", "First", "https://www.cnn.com/a", none⟩,
          ⟨"Top Stories", "Third", "https://www.cnn.com/c", none⟩] :=
  ⟨rfl, rfl, rfl, rfl, rfl, rfl, rfl, rfl⟩

/-! ## C4: the browser is closed -/

theorem getLast_close (t u : List Event) (h : t = u ++ [.close]) :
    t.getLast? = some .close := by
  rw [h]
  simp

/-- C4 (as amended): in every run in which the browser is launched, when `setupBrowser`
completes (the page is created and, in the variants with a proxy, authenticated),
`browser.close()` is the last external call of `scrapeCNNHomepage`, whatever the outcomes of
the navigation, the debug dump, the wait and the extraction, and it is among the calls of
`main`; when the creation of the page or the proxy authentication fails, the error propagates
from `scrapeCNNHomepage` to its caller and the run ends with that failed call. -/
theorem C4_close_after_setup (w : World) (N : Nat) (hl : w.launchOk = true) :
    (w.newPageOk = true → w.authenticateOk = true →
      (Save_headlines.scrapeCNNHomepage w N w.init).2.trace.getLast? = some .close
      ∧ (more_top_stories.scrapeCNNHomepage w N w.init).2.trace.getLast? = some .close
      ∧ (cnn_scraper.scrapeCNNHomepage w N w.init).2.trace.getLast? = some .close
      ∧ Event.close ∈ (Save_headlines.main w w.init).2.trace
      ∧ Event.close ∈ (more_top_stories.main w w.init).2.trace
      ∧ Event.close ∈ (cnn_scraper.main w w.init).2.trace)
    ∧ (w.newPageOk = true →
      (copy.scrapeCNNHomepage w w.init).2.trace.getLast? = some .close
      ∧ Event.close ∈ (copy.main w w.init).2.trace)
    ∧ (w.newPageOk = false →
      (Save_headlines.scrapeCNNHomepage w N w.init).1 = .error .newPage
      ∧ (Save_headlines.scrapeCNNHomepage w N w.init).2.trace = [.launch, .newPage]
      ∧ (copy.scrapeCNNHomepage w w.init).1 = .error .newPage
      ∧ (copy.scrapeCNNHomepage w w.init).2.trace = [.launch, .newPage]
      ∧ (more_top_stories.scrapeCNNHomepage w N w.init).1 = .error .newPage
      ∧ (more_top_stories.scrapeCNNHomepage w N w.init).2.trace = [.launch, .newPage]
      ∧ (cnn_scraper.scrapeCNNHomepage w N w.init).1 = .error .newPage
      ∧ (cnn_scraper.scrapeCNNHomepage w N w.init).2.trace = [.launch, .newPage])
    ∧ (w.newPageOk = true → w.authenticateOk = false →
      (Save_headlines.scrapeCNNHomepage w N w.init).1 = .error .authenticate
      ∧ (Save_headlines.scrapeCNNHomepage w N w.init).2.trace
          = [.launch, .newPage, .authenticate]
      ∧ (more_top_stories.scrapeCNNHomepage w N w.init).1 = .error .authenticate
      ∧ (more_top_stories.scrapeCNNHomepage w N w.init).2.trace
          = [.launch, .newPage, .authenticate]
      ∧ (cnn_scraper.scrapeCNNHomepage w N w.init).1 = .error .authenticate
      ∧ (cnn_scraper.scrapeCNNHomepage w N w.init).2.trace
          = [.launch, .newPage, .authenticate]) := by
  have hmain : ∀ (sc : World → Run (Option (List HeadlineRecord))) (header : List String),
      (sc w w.init).2.trace.getLast? = some .close →
      Event.close ∈ (mainWith sc (storeDataInCSVWith header) w w.init).2.trace := by
    intro sc header h
    obtain ⟨extra, he⟩ := mainWith_trace sc header w w.init
    rw [he]
    exact List.mem_append_left _ (List.mem_of_getLast?_eq_some h)
  refine ⟨?_, ?_, ?_, ?_⟩
  · intro hp ha
    have g : ∀ ex : World → Run (List HeadlineRecord), ∀ M,
        (scrapeCNNHomepageWith ex w M w.init).2.trace.getLast? = some .close :=
      fun ex M => getLast_close _ _ (scrape_run ex w M hl hp ha).2
    exact ⟨g _ N, g _ N, g _ N, hmain _ _ (g _ defaultRetries), hmain _ _ (g _ defaultRetries),
      hmain _ _ (g _ defaultRetries)⟩
  · intro hp
    have g := getLast_close _ _ (copy_scrape_run w hl hp).2
    exact ⟨g, hmain _ _ g⟩
  · intro hp
    simp [Save_headlines.scrapeCNNHomepage, more_top_stories.scrapeCNNHomepage,
      cnn_scraper.scrapeCNNHomepage, scrapeCNNHomepageWith, copy.scrapeCNNHomepage,
      setupBrowser, copy.setupBrowser, run_bind, Run.bind, call, State.push, World.init, hl, hp]
  · intro hp ha
    simp [Save_headlines.scrapeCNNHomepage, more_top_stories.scrapeCNNHomepage,
      cnn_scraper.scrapeCNNHomepage, scrapeCNNHomepageWith,
      setupBrowser, run_bind, Run.bind, call, State.push, World.init, hl, hp, ha]

/-- C4 at concrete worlds: in the world whose navigation never succeeds the run of
`Save_headlines.js` ends with `browser.close()`. -/
theorem C4_close_after_setup_witness :
    (Save_headlines.scrapeCNNHomepage navigationDown 3 navigationDown.init).2.trace.getLast?
      = some .close
    ∧ Event.close ∈ (copy.main navigationDown navigationDown.init).2.trace :=
  ⟨((C4_close_after_setup navigationDown 3 rfl).1 rfl rfl).1,
    ((C4_close_after_setup navigationDown 3 rfl).2.1 rfl).2⟩

/-- C4 as stated fails: in the world in which the browser is launched and the creation of the
page then fails, the run of `main` launched the browser and never calls `browser.close()`. -/
theorem C4_counterexample :
    pageCreationFails.launchOk = true
    ∧ (Save_headlines.main pageCreationFails pageCreationFails.init).2.trace
        = [.launch, .newPage]
    ∧ Event.launch ∈ (Save_headlines.main pageCreationFails pageCreationFails.init).2.trace
    ∧ Event.close ∉ (Save_headlines.main pageCreationFails pageCreationFails.init).2.trace
    ∧ Event.close ∉ (copy.main pageCreationFails pageCreationFails.init).2.trace := by
  have h1 : (Save_headlines.main pageCreationFails pageCreationFails.init).2.trace
      = [.launch, .newPage] := rfl
  have h2 : (copy.main pageCreationFails pageCreationFails.init).2.trace
      = [.launch, .newPage] := rfl
  rw [h1, h2]
  exact ⟨rfl, rfl, by simp, by simp, by simp⟩

/-! ## C10: the navigation step of the four variants -/

/-- C10 (as amended): in `Save_headlines.js`, `more_top_stories.js` and `cnn_scraper.js`, with
the default retry count, a run whose first navigation attempt fails and whose second succeeds
waits 5000 ms between the two and, the other calls succeeding, completes with the extracted
records; `copy.js` has no retry: when its one attempt fails `scrapeCNNHomepage` makes no
further call of `page.goto`, no delay and no extraction, and returns `undefined` once the
browser is closed. -/
theorem C10_navigation_step (w : World) (hl : w.launchOk = true) (hp : w.newPageOk = true)
    (h0 : w.gotoOk 0 = false) :
    (w.authenticateOk = true → w.gotoOk 1 = true → w.contentOk = true →
      w.writeFileOk = true → w.evaluateOk = true → w.closeOk = true →
      completesWithRecords Save_headlines.scrapeCNNHomepage Save_headlines.extractHeadlines
        w defaultRetries 1
      ∧ completesWithRecords more_top_stories.scrapeCNNHomepage
        more_top_stories.extractHeadlines w defaultRetries 1
      ∧ (featuredTitleDangling w.document = false →
        completesWithRecords cnn_scraper.scrapeCNNHomepage cnn_scraper.extractHeadlines
          w defaultRetries 1))
    ∧ attempts 1 = [gotoEvent, .setTimeout 5000, gotoEvent]
    ∧ (copy.scrapeCNNHomepage w w.init).1 = (if w.closeOk then .ok none else .error .close)
    ∧ (copy.scrapeCNNHomepage w w.init).2.trace
        = [.launch, .newPage, .setDefaultNavigationTimeout 60000,
            .goto "https://www.cnn.com/" "networkidle2" 60000, .close] := by
  refine ⟨?_, rfl, ?_, ?_⟩
  · intro ha h1 hc hw he hcl
    have hfail : ∀ j, j < 1 → w.gotoOk j = false := by
      intro j hj
      have : j = 0 := by omega
      subst this
      exact h0
    exact ⟨completes _ w defaultRetries 1 (by decide) hl hp ha hfail h1 hc hw he hcl
        (Save_headlines_hex w),
      completes _ w defaultRetries 1 (by decide) hl hp ha hfail h1 hc hw he hcl
        (more_top_stories_hex w),
      fun hd => completes _ w defaultRetries 1 (by decide) hl hp ha hfail h1 hc hw he hcl
        (cnn_scraper_hex w hd)⟩
  · rw [(copy_scrape_run w hl hp).1, (copy_tryBlock_fail w hl hp h0).1]
    rfl
  · rw [(copy_scrape_run w hl hp).2, (copy_tryBlock_fail w hl hp h0).2]
    rfl

/-- C10 at a concrete world: the first attempt fails, the second succeeds. -/
theorem C10_navigation_step_witness :
    completesWithRecords Save_headlines.scrapeCNNHomepage Save_headlines.extractHeadlines
      (failsFirst 1) defaultRetries 1
    ∧ (copy.scrapeCNNHomepage (failsFirst 1) (failsFirst 1).init).1
      = (if (failsFirst 1).closeOk then .ok none else .error .close) :=
  ⟨((C10_navigation_step (failsFirst 1) rfl rfl rfl).1 rfl rfl rfl rfl rfl rfl).1,
    (C10_navigation_step (failsFirst 1) rfl rfl rfl).2.2.1⟩

/-- C10 as stated fails for `copy.js`: in the world whose first navigation attempt fails and
whose second would succeed, `scrapeCNNHomepage` of `copy.js` calls `page.goto` once, waits for
no delay and returns `undefined`, not the extracted records. -/
theorem C10_counterexample :
    (failsFirst 1).gotoOk 0 = false ∧ (failsFirst 1).gotoOk 1 = true
    ∧ (copy.scrapeCNNHomepage (failsFirst 1) (failsFirst 1).init).1 = .ok none
    ∧ (copy.scrapeCNNHomepage (failsFirst 1) (failsFirst 1).init).2.gotoCalls = 1
    ∧ (copy.scrapeCNNHomepage (failsFirst 1) (failsFirst 1).init).2.trace.countP Event.isDelay
        = 0
    ∧ (Save_headlines.scrapeCNNHomepage (failsFirst 1) defaultRetries (failsFirst 1).init).1
        = .ok (some [⟨"Top Stories", "First", "https://www.cnn.com/a", none⟩,
            ⟨"Top Stories", "Third", "https://www.cnn.com/c", none⟩]) :=
  ⟨rfl, rfl, rfl, rfl, rfl, rfl⟩

/-! ## C5: absent regions -/

/-- C5 (as amended): for every DOM tree the page functions of `Save_headlines.js`, `copy.js` and
`more_top_stories.js` return, and so does the one of `cnn_scraper.js` unless the
`Featured Sections` title is there without a `.zone__inner` around it; what they return is the
concatenation of the records of their regions, and a region no element of the page matches
contributes no record. -/
theorem C5_absent_regions (cd : String) (d : Document) :
    (Save_headlines.pageFunction d = .ok (topStoriesRecords none d
      ++ moreTopStoriesZoneRecords none d ++ labelledZoneRecords none d)
    ∧ copy.pageFunction d = .ok (topStoriesRecords none d
      ++ moreTopStoriesZoneRecords none d ++ labelledZoneRecords none d)
    ∧ more_top_stories.pageFunction cd d = .ok (topStoriesRecords (some cd) d
      ++ leadPlusRecords (some cd) d ++ labelledZoneRecords (some cd) d)
    ∧ (featuredTitleDangling d = false →
      cnn_scraper.pageFunction cd d = .ok (topStoriesRecords (some cd) d
        ++ leadPlusRecords (some cd) d
        ++ dataSectionRecords (some cd) "business" "Global Business" d
        ++ dataSectionRecords (some cd) "sport" "Sport" d
        ++ dataSectionRecords (some cd) "style" "Style" d
        ++ dataSectionRecords (some cd) "travel" "Travel" d
        ++ missedItRecords (some cd) d ++ featuredRecords (some cd) d)))
    ∧ (∀ date : Option String,
      (d.querySelector leadPackageSel = none → topStoriesRecords date d = [])
      ∧ (d.querySelector moreTopStoriesZoneSel = none → moreTopStoriesZoneRecords date d = [])
      ∧ (d.querySelectorAll leadPlusItemSel = [] → leadPlusRecords date d = [])
      ∧ (d.querySelectorAll labelledZoneSel = [] → labelledZoneRecords date d = [])
      ∧ (∀ name label, d.querySelectorAll (dataSectionSel name) = [] →
          dataSectionRecords date name label d = [])
      ∧ (d.querySelector missedItSel = none → missedItRecords date d = [])
      ∧ (d.querySelectorPath zoneTitleSel = none → featuredRecords date d = [])) := by
  refine ⟨⟨Save_headlines_pageFunction_eq d, copy_pageFunction_eq d,
    more_top_stories_pageFunction_eq cd d, ?_⟩, ?_⟩
  · intro h
    rw [cnn_scraper_pageFunction_eq, h]
    rfl
  · intro date
    refine ⟨?_, ?_, ?_, ?_, ?_, ?_, ?_⟩
    · intro h
      simp [topStoriesRecords, h]
    · intro h
      simp [moreTopStoriesZoneRecords, h]
    · intro h
      simp [leadPlusRecords, validCards, h]
    · intro h
      simp [labelledZoneRecords, h]
    · intro name label h
      simp [dataSectionRecords, validCards, h]
    · intro h
      simp [missedItRecords, h]
    · intro h
      simp [featuredRecords, h]

/-- C5 at a fixture: on the top-stories fixture, which has no other region, `cnn_scraper.js`
returns the two records of the top stories. -/
theorem C5_absent_regions_witness :
    cnn_scraper.pageFunction "2024-01-01" fixtureTopStories
      = .ok (topStoriesRecords (some "2024-01-01") fixtureTopStories
        ++ leadPlusRecords (some "2024-01-01") fixtureTopStories
        ++ dataSectionRecords (some "2024-01-01") "business" "Global Business" fixtureTopStories
        ++ dataSectionRecords (some "2024-01-01") "sport" "Sport" fixtureTopStories
        ++ dataSectionRecords (some "2024-01-01") "style" "Style" fixtureTopStories
        ++ dataSectionRecords (some "2024-01-01") "travel" "Travel" fixtureTopStories
        ++ missedItRecords (some "2024-01-01") fixtureTopStories
        ++ featuredRecords (some "2024-01-01") fixtureTopStories)
    ∧ moreTopStoriesZoneRecords none fixtureTopStories = [] :=
  ⟨(C5_absent_regions "2024-01-01" fixtureTopStories).1.2.2.2 rfl,
    ((C5_absent_regions "2024-01-01" fixtureTopStories).2 none).2.1 rfl⟩

/-- C5 as stated fails twice. On a page whose `Featured Sections` title has no `.zone__inner`
around it, `extractHeadlines` of `cnn_scraper.js` raises a `TypeError`. And on a page with an
empty lead-package wrapper followed by one that holds a valid card, removing the first wrapper
raises the number of records of `Save_headlines.js` from 0 to 1. -/
theorem C5_counterexample :
    (cnn_scraper.extractHeadlines (nominalWorld fixtureDanglingTitle)
        (nominalWorld fixtureDanglingTitle).init).1 = .error .typeError
    ∧ Save_headlines.pageFunction fixtureTwoWrappers = .ok []
    ∧ Save_headlines.pageFunction (fixtureTwoWrappers.removeChild 0)
        = .ok [⟨"Top Stories", "Story", "https://www.cnn.com/s", none⟩] :=
  ⟨rfl, rfl, rfl⟩

/-! ## C6: section labels of the zone-iterating variants -/

/-- C6: in `Save_headlines.js`, `copy.js` and `more_top_stories.js`, every record the loop over
the `.zone__content[data-zone-label]` elements pushes was pushed by `extractHeadlineData` for a
card of one of these zones and carries that zone's `data-zone-label` as section, a value that
is non-empty and different from `More Top Stories`; hence every returned record whose section
is `More Top Stories` was pushed by the dedicated More Top Stories case, and every returned
record whose section is `Top Stories` was pushed by the top-stories case or comes from a zone
whose label is `Top Stories`. -/
theorem C6_zone_labels (cd : Option String) (date : String) (d : Document) :
    (∀ r ∈ forEachZone cd (d.querySelectorAll labelledZoneSel) [],
      ∃ zone ∈ d.querySelectorAll labelledZoneSel,
        zone.getAttribute "data-zone-label" = some r.«section»
        ∧ r.«section» ≠ "" ∧ r.«section» ≠ "More Top Stories"
        ∧ ∃ card ∈ zone.querySelectorAll cardSel,
          extractHeadlineData cd [] card r.«section» = [r])
    ∧ (∀ rs, (Save_headlines.pageFunction d = .ok rs ∨ copy.pageFunction d = .ok rs) →
      ∀ r ∈ rs,
        (r.«section» = "More Top Stories" → r ∈ moreTopStoriesZoneRecords none d)
        ∧ (r.«section» = "Top Stories" → r ∈ topStoriesRecords none d
          ∨ ∃ zone ∈ d.querySelectorAll labelledZoneSel,
            zone.getAttribute "data-zone-label" = some "Top Stories"
            ∧ r ∈ zoneRecords none zone))
    ∧ (∀ rs, more_top_stories.pageFunction date d = .ok rs →
      ∀ r ∈ rs,
        (r.«section» = "More Top Stories" → r ∈ leadPlusRecords (some date) d)
        ∧ (r.«section» = "Top Stories" → r ∈ topStoriesRecords (some date) d
          ∨ ∃ zone ∈ d.querySelectorAll labelledZoneSel,
            zone.getAttribute "data-zone-label" = some "Top Stories"
            ∧ r ∈ zoneRecords (some date) zone)) := by
  have key : ∀ (c : Option String) (more : List HeadlineRecord),
      (∀ r ∈ more, r.«section» = "More Top Stories") →
      ∀ r ∈ topStoriesRecords c d ++ more ++ labelledZoneRecords c d,
        (r.«section» = "More Top Stories" → r ∈ more)
        ∧ (r.«section» = "Top Stories" → r ∈ topStoriesRecords c d
          ∨ ∃ zone ∈ d.querySelectorAll labelledZoneSel,
            zone.getAttribute "data-zone-label" = some "Top Stories"
            ∧ r ∈ zoneRecords c zone) := by
    intro c more hmore r hr
    simp only [List.mem_append] at hr
    rcases hr with (hr | hr) | hr
    · refine ⟨fun h => ?_, fun _ => Or.inl hr⟩
      rw [(topStoriesRecords_mem _ _ _ hr).2.1] at h
      exact absurd h (by decide)
    · refine ⟨fun _ => hr, fun h => ?_⟩
      rw [hmore r hr] at h
      exact absurd h (by decide)
    · obtain ⟨zone, hz, hrz⟩ := labelledZoneRecords_mem _ _ _ hr
      obtain ⟨_, _, hlabel, _, hne, _⟩ := zoneRecords_mem _ _ _ hrz
      refine ⟨fun h => absurd h hne, fun h => Or.inr ⟨zone, hz, ?_, hrz⟩⟩
      rw [hlabel, h]
  refine ⟨?_, ?_, ?_⟩
  · intro r hr
    rw [forEachZone_eq, List.nil_append] at hr
    obtain ⟨zone, hz, hrz⟩ := labelledZoneRecords_mem cd d r hr
    obtain ⟨_, _, hlabel, hne1, hne2, card, hc, hcard⟩ := zoneRecords_mem _ _ _ hrz
    refine ⟨zone, hz, hlabel, hne1, hne2, card, hc, ?_⟩
    rw [extractHeadlineData_eq, hcard]
    rfl
  · intro rs h r hr
    have h' : rs = topStoriesRecords none d ++ moreTopStoriesZoneRecords none d
        ++ labelledZoneRecords none d := by
      rcases h with h | h
      · rw [Save_headlines_pageFunction_eq] at h
        injection h with h
        exact h.symm
      · rw [copy_pageFunction_eq] at h
        injection h with h
        exact h.symm
    subst h'
    exact key none _ (fun r h => (moreTopStoriesZoneRecords_mem _ _ _ h).2.1) r hr
  · intro rs h r hr
    rw [more_top_stories_pageFunction_eq] at h
    injection h with h
    subst h
    exact key (some date) _ (fun r h => (validCards_mem _ _ _ _ h).2.1) r hr

/-- C6 at a fixture: on the page with five zones the records of `Save_headlines.js` are the
lead story, the card of the More Top Stories zone, and the cards of the zones labelled
`Top Stories` and `Sport`; the record with section `More Top Stories` is the one of the
dedicated case. -/
theorem C6_zone_labels_witness :
    Save_headlines.pageFunction fixtureZones
      = .ok [⟨"Top Stories", "Lead", "https://www.cnn.com/lead", none⟩,
          ⟨"More Top Stories", "More", "https://www.cnn.com/more", none⟩,
          ⟨"Top Stories", "Zone top", "https://www.cnn.com/top", none⟩,
          ⟨"Sport", "Match", "https://www.cnn.com/sport", none⟩]
    ∧ (⟨"More Top Stories", "More", "https://www.cnn.com/more", none⟩ : HeadlineRecord)
      ∈ moreTopStoriesZoneRecords none fixtureZones :=
  ⟨rfl, (((C6_zone_labels none "2024-01-01" fixtureZones).2.1 _ (Or.inl rfl))
    ⟨"More Top Stories", "More", "https://www.cnn.com/more", none⟩ (by decide)).1 rfl⟩

/-! ## C8: the sequence returned by `Save_headlines.js` -/

theorem isMatch_moreTopStoriesZone (n : Node) :
    Node.isMatch moreTopStoriesZoneSel n
      = (Node.isMatch labelledZoneSel n
        && (n.getAttribute "data-zone-label" == some "More Top Stories")) := by
  cases n with
  | text t => rfl
  | element t c a h ch =>
    simp only [Node.isMatch, moreTopStoriesZoneSel, labelledZoneSel, Node.hasAttr]
    cases hg : (Node.element t c a h ch).getAttribute "data-zone-label" <;> simp

theorem moreTopStories_first_zone (d : Document) :
    d.querySelector moreTopStoriesZoneSel
      = (d.querySelectorAll labelledZoneSel).find?
          (fun z => z.getAttribute "data-zone-label" == some "More Top Stories") := by
  unfold Document.querySelector Document.querySelectorAll
  rw [List.find?_filter]
  congr 1
  funext n
  rw [isMatch_moreTopStoriesZone]
  cases Node.isMatch labelledZoneSel n
    <;> cases hb : (n.getAttribute "data-zone-label" == some "More Top Stories")
    <;> simp_all

/-- C8: for every DOM tree the sequence `extractHeadlines` of `Save_headlines.js` returns is the
concatenation, without deduplication, of the valid cards of the first lead-package wrapper
tagged `Top Stories`, the valid cards of the first zone labelled `More Top Stories` tagged
`More Top Stories`, and, zone after zone in document order, the valid cards of each labelled
zone whose label is non-empty and not `More Top Stories`, tagged with that label, the cards of
each block in document order; and the fixture with one top-stories region holding two valid
cards and a card with an empty headline yields exactly two records, both with section
`Top Stories`. -/
theorem C8_concatenation :
    (∀ d : Document, Save_headlines.pageFunction d = .ok (Save_headlines.concatenation d))
    ∧ (∀ (w : World) (s : State), w.evaluateOk = true →
      (Save_headlines.extractHeadlines w s).1 = .ok (Save_headlines.concatenation w.document))
    ∧ Save_headlines.pageFunction fixtureTopStories
      = .ok [⟨"Top Stories", "First", "https://www.cnn.com/a", none⟩,
          ⟨"Top Stories", "Third", "https://www.cnn.com/c", none⟩] := by
  have h : ∀ d : Document,
      Save_headlines.pageFunction d = .ok (Save_headlines.concatenation d) := by
    intro d
    rw [Save_headlines_pageFunction_eq]
    unfold Save_headlines.concatenation topStoriesRecords moreTopStoriesZoneRecords
      labelledZoneRecords
    rw [moreTopStories_first_zone]
    have e : (d.querySelectorAll leadPackageSel).head? = d.querySelector leadPackageSel := by
      unfold Document.querySelectorAll Document.querySelector
      exact List.filter_head? _ _
    rw [e]
  refine ⟨h, ?_, rfl⟩
  intro w s he
  unfold Save_headlines.extractHeadlines
  rw [pageEvaluate_fst, he, if_pos rfl, h]

/-- C8 at a world: the extraction of `Save_headlines.js` on the top-stories fixture. -/
theorem C8_concatenation_witness :
    (Save_headlines.extractHeadlines (nominalWorld fixtureTopStories)
        (nominalWorld fixtureTopStories).init).1
      = .ok (Save_headlines.concatenation (nominalWorld fixtureTopStories).document) :=
  C8_concatenation.2.1 (nominalWorld fixtureTopStories) _ rfl

/-! ## Lemmas on the clock -/

theorem push_now (s : State) (w : World) (ev : Event) (extra : Nat) :
    s.now ≤ (s.push w ev extra).now := by
  unfold State.push
  simp only
  omega

theorem retryLoop_now (w : World) (N : Nat) :
    ∀ (fuel i : Nat) (s : State), s.now ≤ (retryLoop w N fuel i s).2.now := by
  intro fuel
  induction fuel with
  | zero => intro i s; exact Nat.le_refl _
  | succ fuel ih =>
    intro i s
    by_cases hi : i < N
    · rw [retryLoop_succ w N fuel i s hi]
      have h1 : s.now ≤ (pageGoto w s).2.now := push_now _ _ _ _
      split
      · exact h1
      · split
        · exact h1
        · exact Nat.le_trans (Nat.le_trans h1 (push_now _ w (.setTimeout 5000) 5000)) (ih _ _)
    · simp [retryLoop, hi]

theorem setupBrowser_now (w : World) (s : State) : s.now ≤ (setupBrowser w s).2.now := by
  have h1 := push_now s w .launch 0
  have h2 := push_now (s.push w .launch 0) w .newPage 0
  have h3 := push_now ((s.push w .launch 0).push w .newPage 0) w .authenticate 0
  cases hl : w.launchOk <;> cases hp : w.newPageOk <;> cases ha : w.authenticateOk
    <;> simp only [setupBrowser, run_bind, Run.bind, call, hl, hp, ha, Bool.false_eq_true,
      ↓reduceIte] <;> omega

/-- When the guarded block returns, it returns the records `extractHeadlines` returned, called
in a state whose clock is not before the one the block started with. -/
theorem tryBlock_some (ex : World → Run (List HeadlineRecord)) (w : World) (N : Nat)
    (s : State) (o : Option (List HeadlineRecord)) (h : (tryBlock ex w N s).1 = .ok o) :
    ∃ s', s.now ≤ s'.now ∧ ∃ rs, o = some rs ∧ (ex w s').1 = .ok rs := by
  unfold tryBlock at h
  rw [bind_ok _ _ s (s.push w (.setDefaultNavigationTimeout 120000) 0) () (by rfl)] at h
  have n1 := push_now s w (.setDefaultNavigationTimeout 120000) 0
  have n2 := retryLoop_now w N N 0 (s.push w (.setDefaultNavigationTimeout 120000) 0)
  rcases hloop : retryLoop w N N 0 (s.push w (.setDefaultNavigationTimeout 120000) 0)
    with ⟨r, s1⟩
  rw [hloop] at n2
  cases r with
  | error e =>
    rw [bind_error _ _ _ _ e hloop] at h
    cases h
  | ok u =>
    rw [bind_ok _ _ _ _ u hloop] at h
    cases hc : w.contentOk
    · rw [bind_error _ _ _ _ _ (call_error _ _ _ _ _ _ hc)] at h
      cases h
    · rw [bind_ok _ _ _ _ () (call_ok _ _ _ _ _ _ hc)] at h
      cases hw : w.writeFileOk
      · rw [bind_error _ _ _ _ _ (call_error _ _ _ _ _ _ hw)] at h
        cases h
      · rw [bind_ok _ _ _ _ () (call_ok _ _ _ _ _ _ hw),
          bind_ok _ _ _ _ () (waitForLeadPackage_eq _ _), run_bind] at h
        unfold Run.bind at h
        have n3 := push_now s1 w .content 0
        have n4 := push_now (s1.push w .content 0) w (.writeFile "cnn_page_content.html") 0
        have n5 := push_now ((s1.push w .content 0).push w
          (.writeFile "cnn_page_content.html") 0) w (.waitForSelector 10000) 0
        refine ⟨((s1.push w .content 0).push w (.writeFile "cnn_page_content.html") 0).push
          w (.waitForSelector 10000) 0, by simp only at n2; omega, ?_⟩
        rcases hx : ex w (((s1.push w .content 0).push w
          (.writeFile "cnn_page_content.html") 0).push w (.waitForSelector 10000) 0)
          with ⟨r, s2⟩
        rw [hx] at h
        cases r with
        | error e => cases h
        | ok rs =>
          injection h with h
          exact ⟨rs, h.symm, rfl⟩

/-- When a run returns records, they are the ones `extractHeadlines` returned, called in a state
whose clock is not before the start of the run. -/
theorem scrape_some (ex : World → Run (List HeadlineRecord)) (w : World) (N : Nat)
    (rs : List HeadlineRecord) (h : (scrapeCNNHomepageWith ex w N w.init).1 = .ok (some rs)) :
    ∃ s, w.startTime ≤ s.now ∧ (ex w s).1 = .ok rs := by
  have n0 := setupBrowser_now w w.init
  rcases hs : (setupBrowser w w.init).1 with e | u
  · rw [scrape_setup_error ex w N w.init e hs] at h
    cases h
  · rw [scrape_after_setup ex w N w.init hs, tryFinally_close_fst, tryCatch_none_fst] at h
    cases hcl : w.closeOk
    · rw [hcl] at h
      cases h
    · rw [hcl, if_pos rfl] at h
      rcases ht : (tryBlock ex w N (setupBrowser w w.init).2).1 with e | o
      · rw [ht] at h
        cases h
      · rw [ht] at h
        injection h with h
        subst h
        obtain ⟨s', hn, rs', hrs, hex⟩ := tryBlock_some ex w N _ _ ht
        injection hrs with hrs
        subst hrs
        exact ⟨s', Nat.le_trans n0 hn, hex⟩

/-! ## C7: the date of the records -/

theorem dated_mem (w : World) (s : State)
    (pf : String → Document → Except Error (List HeadlineRecord))
    (hpf : ∀ cd d rs, pf cd d = .ok rs → ∀ r ∈ rs, r.wellFormed ∧ r.date = some cd)
    (rs : List HeadlineRecord) (h : (pageEvaluate w (pf (isoDate s.now)) s).1 = .ok rs) :
    ∀ r ∈ rs, r.date = some (isoDate s.now) :=
  fun r hr => (hpf _ _ _ (pageEvaluate_ok _ _ _ _ h) r hr).2

/-- C7 (as amended): in `more_top_stories.js` and `cnn_scraper.js` all records returned by one
call of `extractHeadlines` carry one identical date string, the UTC calendar date read from the
clock when `extractHeadlines` is called; so all records a run returns carry the date of one
instant that is not before the start of the run. -/
theorem C7_date_of_extraction (w : World) (N : Nat) :
    (∀ s rs, (more_top_stories.extractHeadlines w s).1 = .ok rs →
      ∀ r ∈ rs, r.date = some (isoDate s.now))
    ∧ (∀ s rs, (cnn_scraper.extractHeadlines w s).1 = .ok rs →
      ∀ r ∈ rs, r.date = some (isoDate s.now))
    ∧ (∀ rs, (more_top_stories.scrapeCNNHomepage w N w.init).1 = .ok (some rs) →
      ∃ t, w.startTime ≤ t ∧ ∀ r ∈ rs, r.date = some (isoDate t))
    ∧ (∀ rs, (cnn_scraper.scrapeCNNHomepage w N w.init).1 = .ok (some rs) →
      ∃ t, w.startTime ≤ t ∧ ∀ r ∈ rs, r.date = some (isoDate t)) := by
  have a : ∀ s rs, (more_top_stories.extractHeadlines w s).1 = .ok rs →
      ∀ r ∈ rs, r.date = some (isoDate s.now) :=
    fun s rs h => dated_mem w s more_top_stories.pageFunction
      more_top_stories_pageFunction_mem rs h
  have b : ∀ s rs, (cnn_scraper.extractHeadlines w s).1 = .ok rs →
      ∀ r ∈ rs, r.date = some (isoDate s.now) :=
    fun s rs h => dated_mem w s cnn_scraper.pageFunction cnn_scraper_pageFunction_mem rs h
  refine ⟨a, b, ?_, ?_⟩
  · intro rs h
    obtain ⟨s, hn, hs⟩ := scrape_some _ w N rs h
    exact ⟨s.now, hn, a s rs hs⟩
  · intro rs h
    obtain ⟨s, hn, hs⟩ := scrape_some _ w N rs h
    exact ⟨s.now, hn, b s rs hs⟩

/-- C7 at a concrete run: the records of the run started one second before midnight all carry
the date of one instant after its start. -/
theorem C7_date_of_extraction_witness :
    ∃ t, beforeMidnight.startTime ≤ t
      ∧ ∀ r ∈ [(⟨"Top Stories", "First", "https://www.cnn.com/a", some "1970-01-02"⟩ :
            HeadlineRecord),
          ⟨"Top Stories", "Third", "https://www.cnn.com/c", some "1970-01-02"⟩],
        r.date = some (isoDate t) :=
  (C7_date_of_extraction beforeMidnight defaultRetries).2.2.1 _ rfl

/-- C7 as stated fails: a run of `more_top_stories.js` that starts on 1970-01-01 at 23:59:59
UTC, whose first navigation attempt fails and whose second succeeds after the delay of five
seconds, stamps its records with 1970-01-02, which is not the date of its start. -/
theorem C7_counterexample :
    isoDate beforeMidnight.startTime = "1970-01-01"
    ∧ (more_top_stories.scrapeCNNHomepage beforeMidnight defaultRetries
        beforeMidnight.init).1
      = .ok (some [⟨"Top Stories", "First", "https://www.cnn.com/a", some "1970-01-02"⟩,
          ⟨"Top Stories", "Third", "https://www.cnn.com/c", some "1970-01-02"⟩]) :=
  ⟨rfl, rfl⟩

/-! ## C9: extracting twice -/

theorem validCards_withoutDate (cd : Option String) (label : String) (cards : List Node) :
    (validCards cd label cards).map HeadlineRecord.withoutDate = validCards none label cards := by
  unfold validCards
  rw [List.map_filterMap]
  congr 1
  funext card
  unfold validRecord
  cases card.querySelector headlineTextSel <;> cases card.querySelector containerLinkSel
    <;> simp
  split <;> simp [HeadlineRecord.withoutDate]

theorem zoneRecords_withoutDate (cd : Option String) (zone : Node) :
    (zoneRecords cd zone).map HeadlineRecord.withoutDate = zoneRecords none zone := by
  unfold zoneRecords
  cases zone.getAttribute "data-zone-label" with
  | none => rfl
  | some label =>
    simp only
    split
    · exact validCards_withoutDate _ _ _
    · rfl

theorem labelledZoneRecords_withoutDate (cd : Option String) (d : Document) :
    (labelledZoneRecords cd d).map HeadlineRecord.withoutDate = labelledZoneRecords none d := by
  unfold labelledZoneRecords
  induction d.querySelectorAll labelledZoneSel with
  | nil => rfl
  | cons z zs ih =>
    rw [List.flatMap_cons, List.flatMap_cons, List.map_append, ih, zoneRecords_withoutDate]

theorem topStoriesRecords_withoutDate (cd : Option String) (d : Document) :
    (topStoriesRecords cd d).map HeadlineRecord.withoutDate = topStoriesRecords none d := by
  unfold topStoriesRecords
  cases d.querySelector leadPackageSel with
  | none => rfl
  | some wrapper => exact validCards_withoutDate _ _ _

theorem missedItRecords_withoutDate (cd : Option String) (d : Document) :
    (missedItRecords cd d).map HeadlineRecord.withoutDate = missedItRecords none d := by
  unfold missedItRecords
  cases d.querySelector missedItSel with
  | none => rfl
  | some zone => exact validCards_withoutDate _ _ _

theorem featuredRecords_withoutDate (cd : Option String) (d : Document) :
    (featuredRecords cd d).map HeadlineRecord.withoutDate = featuredRecords none d := by
  unfold featuredRecords
  cases d.querySelectorPath zoneTitleSel with
  | none => rfl
  | some title =>
    simp only
    split
    · cases closest title zoneInnerSel with
      | none => rfl
      | some zi => exact validCards_withoutDate _ _ _
    · rfl

theorem more_top_stories_withoutDate (cd : String) (d : Document) :
    (more_top_stories.pageFunction cd d).map (List.map HeadlineRecord.withoutDate)
      = .ok (topStoriesRecords none d ++ leadPlusRecords none d
          ++ labelledZoneRecords none d) := by
  rw [more_top_stories_pageFunction_eq]
  simp only [Except.map, List.map_append, topStoriesRecords_withoutDate,
    labelledZoneRecords_withoutDate, leadPlusRecords, validCards_withoutDate]

theorem cnn_scraper_withoutDate (cd : String) (d : Document) :
    (cnn_scraper.pageFunction cd d).map (List.map HeadlineRecord.withoutDate)
      = if featuredTitleDangling d then .error .typeError
        else .ok (beforeFeatured none d ++ featuredRecords none d) := by
  rw [cnn_scraper_pageFunction_eq]
  cases featuredTitleDangling d
  · simp only [Bool.false_eq_true, ↓reduceIte, Except.map, List.map_append, beforeFeatured,
      topStoriesRecords_withoutDate, leadPlusRecords, dataSectionRecords,
      validCards_withoutDate, missedItRecords_withoutDate, featuredRecords_withoutDate]
  · rfl

/-- C9 (as amended): on a fixed DOM snapshot two calls of `extractHeadlines`, made in any two
states of the run, return identical record sequences in `Save_headlines.js` and `copy.js`; in
`more_top_stories.js` and `cnn_scraper.js` they return identical sequences when the clock reads
the same UTC calendar date at both calls, and in every case sequences that are identical once
the date field is left out. -/
theorem C9_extracting_twice (w : World) (s s' : State) :
    (Save_headlines.extractHeadlines w s).1 = (Save_headlines.extractHeadlines w s').1
    ∧ (copy.extractHeadlines w s).1 = (copy.extractHeadlines w s').1
    ∧ (isoDate s.now = isoDate s'.now →
      (more_top_stories.extractHeadlines w s).1 = (more_top_stories.extractHeadlines w s').1
      ∧ (cnn_scraper.extractHeadlines w s).1 = (cnn_scraper.extractHeadlines w s').1)
    ∧ ((more_top_stories.extractHeadlines w s).1.map (List.map HeadlineRecord.withoutDate)
      = (more_top_stories.extractHeadlines w s').1.map (List.map HeadlineRecord.withoutDate))
    ∧ ((cnn_scraper.extractHeadlines w s).1.map (List.map HeadlineRecord.withoutDate)
      = (cnn_scraper.extractHeadlines w s').1.map (List.map HeadlineRecord.withoutDate)) := by
  refine ⟨?_, ?_, ?_, ?_, ?_⟩
  · unfold Save_headlines.extractHeadlines
    rw [pageEvaluate_fst, pageEvaluate_fst]
  · unfold copy.extractHeadlines
    rw [pageEvaluate_fst, pageEvaluate_fst]
  · intro h
    unfold more_top_stories.extractHeadlines cnn_scraper.extractHeadlines
    rw [pageEvaluate_fst, pageEvaluate_fst, pageEvaluate_fst, pageEvaluate_fst, h]
    exact ⟨rfl, rfl⟩
  · unfold more_top_stories.extractHeadlines
    rw [pageEvaluate_fst, pageEvaluate_fst]
    cases w.evaluateOk
    · simp only [Bool.false_eq_true, ↓reduceIte]
    · simp only [↓reduceIte, more_top_stories_withoutDate]
  · unfold cnn_scraper.extractHeadlines
    rw [pageEvaluate_fst, pageEvaluate_fst]
    cases w.evaluateOk
    · simp only [Bool.false_eq_true, ↓reduceIte]
    · simp only [↓reduceIte, cnn_scraper_withoutDate]

/-- C9 at a concrete world: two successive calls in the world whose calls take no time. -/
theorem C9_extracting_twice_witness :
    (more_top_stories.extractHeadlines (nominalWorld fixtureTopStories)
        (nominalWorld fixtureTopStories).init).1
      = (more_top_stories.extractHeadlines (nominalWorld fixtureTopStories)
        (more_top_stories.extractHeadlines (nominalWorld fixtureTopStories)
          (nominalWorld fixtureTopStories).init).2).1 :=
  ((C9_extracting_twice (nominalWorld fixtureTopStories) (nominalWorld fixtureTopStories).init
    (more_top_stories.extractHeadlines (nominalWorld fixtureTopStories)
      (nominalWorld fixtureTopStories).init).2).2.2.1 rfl).1

/-- C9 as stated fails for the date-augmented variants: in a world whose calls take one second,
started half a second before midnight UTC, two successive calls of `extractHeadlines` of
`more_top_stories.js` on the same DOM return records with the dates 1970-01-01 and
1970-01-02. -/
theorem C9_counterexample :
    (more_top_stories.extractHeadlines slowWorld slowWorld.init).1
      = .ok [⟨"Top Stories", "First", "https://www.cnn.com/a", some "1970-01-01"⟩,
          ⟨"Top Stories", "Third", "https://www.cnn.com/c", some "1970-01-01"⟩]
    ∧ (more_top_stories.extractHeadlines slowWorld
        (more_top_stories.extractHeadlines slowWorld slowWorld.init).2).1
      = .ok [⟨"Top Stories", "First", "https://www.cnn.com/a", some "1970-01-02"⟩,
          ⟨"Top Stories", "Third", "https://www.cnn.com/c", some "1970-01-02"⟩]
    ∧ (more_top_stories.extractHeadlines slowWorld slowWorld.init).1
      ≠ (more_top_stories.extractHeadlines slowWorld
        (more_top_stories.extractHeadlines slowWorld slowWorld.init).2).1 := by
  have h1 : (more_top_stories.extractHeadlines slowWorld slowWorld.init).1
      = .ok [⟨"Top Stories", "First", "https://www.cnn.com/a", some "1970-01-01"⟩,
          ⟨"Top Stories", "Third", "https://www.cnn.com/c", some "1970-01-01"⟩] := rfl
  have h2 : (more_top_stories.extractHeadlines slowWorld
        (more_top_stories.extractHeadlines slowWorld slowWorld.init).2).1
      = .ok [⟨"Top Stories", "First", "https://www.cnn.com/a", some "1970-01-02"⟩,
          ⟨"Top Stories", "Third", "https://www.cnn.com/c", some "1970-01-02"⟩] := rfl
  refine ⟨h1, h2, ?_⟩
  rw [h1, h2]
  intro h
  injection h with h
  injection h with h _
  injection h with _ _ _ h
  injection h with h
  exact absurd h (by decide)

/-! ## C12: the debug dump and the wait for the lead package -/

/-- A run whose navigation succeeds and whose debug dump fails. -/
theorem scrape_dump_fail (ex : World → Run (List HeadlineRecord)) (w : World) (N k : Nat)
    (hk : k < N) (h1 : w.launchOk = true) (h2 : w.newPageOk = true)
    (h3 : w.authenticateOk = true) (hfail : ∀ j, j < k → w.gotoOk j = false)
    (hok : w.gotoOk k = true) (hd : w.contentOk = false ∨ w.writeFileOk = false) :
    (scrapeCNNHomepageWith ex w N w.init).1 = (if w.closeOk then .ok none else .error .close)
    ∧ (scrapeCNNHomepageWith ex w N w.init).2.trace
        = setupTrace ++ attempts k ++ failedDumpTrace w ++ [.close] := by
  obtain ⟨l1, l2⟩ := retryLoop_spec w N N 0 k (loopStart w)
    (loopStart_gotoCalls w h1 h2 h3) (by omega) (by omega) hk
    (fun j _ hj => hfail j hj) (Or.inl hok)
  rw [hok] at l1
  simp only [↓reduceIte] at l1
  rw [loopStart_trace w h1 h2 h3, Nat.sub_zero] at l2
  obtain ⟨r1, r2⟩ := scrape_run ex w N h1 h2 h3
  have hb : ∃ e, (tryBlock ex w N (setupBrowser w w.init).2).1 = .error e
      ∧ (tryBlock ex w N (setupBrowser w w.init).2).2.trace
        = setupTrace ++ attempts k ++ failedDumpTrace w := by
    unfold tryBlock failedDumpTrace
    unfold loopStart at l1 l2
    rw [bind_ok _ _ _ ((setupBrowser w w.init).2.push w
      (.setDefaultNavigationTimeout 120000) 0) () (by rfl)]
    rw [bind_ok _ _ _ _ () (Prod.ext l1 rfl)]
    cases hc : w.contentOk
    · rw [bind_error _ _ _ _ _ (call_error _ _ _ _ _ _ rfl)]
      refine ⟨_, rfl, ?_⟩
      simp only [push_trace, Bool.false_eq_true, ↓reduceIte]
      rw [← l2]
    · have hw : w.writeFileOk = false := by
        rcases hd with h | h
        · rw [hc] at h
          cases h
        · exact h
      rw [bind_ok _ _ _ _ () (call_ok _ _ _ _ _ _ rfl),
        bind_error _ _ _ _ _ (call_error _ _ _ _ _ _ hw)]
      refine ⟨_, rfl, ?_⟩
      simp only [push_trace, ↓reduceIte]
      rw [l2]
      simp
  obtain ⟨e, b1, b2⟩ := hb
  refine ⟨?_, ?_⟩
  · rw [r1, b1]
    rfl
  · rw [r2, b2]

theorem no_write_in_failed_run (w : World) (k : Nat) (ev : Event)
    (h : ev ∈ setupTrace ++ attempts k ++ failedDumpTrace w ++ [.close]) :
    ev ≠ .evaluate ∧ ev.isWriteRecords = false := by
  simp only [List.mem_append, List.mem_singleton] at h
  rcases h with ((h | h) | h) | h
  · simp only [setupTrace, List.mem_cons, List.mem_singleton, List.not_mem_nil,
      or_false] at h
    rcases h with h | h | h | h <;> subst h <;> exact ⟨by simp, rfl⟩
  · rcases attempts_mem _ _ h with h | h <;> subst h <;> exact ⟨by simp [gotoEvent], rfl⟩
  · unfold failedDumpTrace at h
    cases hc : w.contentOk <;> rw [hc] at h
    · simp only [Bool.false_eq_true, ↓reduceIte, List.mem_singleton] at h
      subst h
      exact ⟨by simp, rfl⟩
    · simp only [↓reduceIte, List.mem_cons, List.mem_singleton, List.not_mem_nil,
        or_false] at h
      rcases h with h | h <;> subst h <;> exact ⟨by simp, rfl⟩
  · subst h
    exact ⟨by simp, rfl⟩

/-- A run with the default retry count whose debug dump fails: `main` makes the calls of
`scrapeCNNHomepage` and no other. -/
theorem main_dump_fail (ex : World → Run (List HeadlineRecord)) (header : List String)
    (w : World) (k : Nat) (hk : k < defaultRetries) (h1 : w.launchOk = true)
    (h2 : w.newPageOk = true) (h3 : w.authenticateOk = true)
    (hfail : ∀ j, j < k → w.gotoOk j = false) (hok : w.gotoOk k = true)
    (hd : w.contentOk = false ∨ w.writeFileOk = false) :
    ∀ ev ∈ (mainWith (fun w => scrapeCNNHomepageWith ex w defaultRetries)
      (storeDataInCSVWith header) w w.init).2.trace, ev.isWriteRecords = false := by
  obtain ⟨a1, a2⟩ := scrape_dump_fail ex w defaultRetries k hk h1 h2 h3 hfail hok hd
  intro ev hev
  rw [mainWith_no_records (fun w => scrapeCNNHomepageWith ex w defaultRetries) _ w w.init
    (by
      intro rs hrs
      have a1' : (scrapeCNNHomepageWith ex w defaultRetries w.init).1
          = (if w.closeOk then .ok none else .error .close) := a1
      rw [a1'] at hrs
      cases hcl : w.closeOk <;> rw [hcl] at hrs <;> simp at hrs)] at hev
  have a2' : (scrapeCNNHomepageWith ex w defaultRetries w.init).2.trace
      = setupTrace ++ attempts k ++ failedDumpTrace w ++ [.close] := a2
  rw [a2'] at hev
  exact (no_write_in_failed_run w k ev hev).2

/-- C12 (as amended): in `Save_headlines.js`, `more_top_stories.js` and `cnn_scraper.js`, for
every run whose navigation succeeds at the attempt of rank `k < N`: when `page.content()` or
the write of `cnn_page_content.html` fails, the error is caught by the handler of
`scrapeCNNHomepage`, the extraction is not invoked and the function returns `undefined` once
the browser is closed, so that `main`, run with the default retry count, writes no CSV file;
when the dump succeeds, a timeout of the wait for the lead package is swallowed and, the
evaluation and `browser.close()` succeeding, the run completes with the records
`extractHeadlines` returns. -/
theorem C12_debug_dump (w : World) (N k : Nat) (hk : k < N) (hl : w.launchOk = true)
    (hp : w.newPageOk = true) (ha : w.authenticateOk = true)
    (hfail : ∀ j, j < k → w.gotoOk j = false) (hok : w.gotoOk k = true) :
    ((w.contentOk = false ∨ w.writeFileOk = false) →
      ((Save_headlines.scrapeCNNHomepage w N w.init).1
          = (if w.closeOk then .ok none else .error .close)
        ∧ Event.evaluate ∉ (Save_headlines.scrapeCNNHomepage w N w.init).2.trace)
      ∧ ((more_top_stories.scrapeCNNHomepage w N w.init).1
          = (if w.closeOk then .ok none else .error .close)
        ∧ Event.evaluate ∉ (more_top_stories.scrapeCNNHomepage w N w.init).2.trace)
      ∧ ((cnn_scraper.scrapeCNNHomepage w N w.init).1
          = (if w.closeOk then .ok none else .error .close)
        ∧ Event.evaluate ∉ (cnn_scraper.scrapeCNNHomepage w N w.init).2.trace)
      ∧ (N = defaultRetries →
        (∀ ev ∈ (Save_headlines.main w w.init).2.trace, ev.isWriteRecords = false)
        ∧ (∀ ev ∈ (more_top_stories.main w w.init).2.trace, ev.isWriteRecords = false)
        ∧ (∀ ev ∈ (cnn_scraper.main w w.init).2.trace, ev.isWriteRecords = false)))
    ∧ (w.waitForSelectorOk = false → w.contentOk = true → w.writeFileOk = true →
      w.evaluateOk = true → w.closeOk = true →
      completesWithRecords Save_headlines.scrapeCNNHomepage Save_headlines.extractHeadlines
        w N k
      ∧ completesWithRecords more_top_stories.scrapeCNNHomepage
        more_top_stories.extractHeadlines w N k
      ∧ (featuredTitleDangling w.document = false →
        completesWithRecords cnn_scraper.scrapeCNNHomepage cnn_scraper.extractHeadlines
          w N k)) := by
  refine ⟨?_, ?_⟩
  · intro hd
    have g : ∀ ex : World → Run (List HeadlineRecord),
        (scrapeCNNHomepageWith ex w N w.init).1
          = (if w.closeOk then .ok none else .error .close)
        ∧ Event.evaluate ∉ (scrapeCNNHomepageWith ex w N w.init).2.trace := by
      intro ex
      obtain ⟨a1, a2⟩ := scrape_dump_fail ex w N k hk hl hp ha hfail hok hd
      refine ⟨a1, ?_⟩
      rw [a2]
      intro hmem
      exact (no_write_in_failed_run w k _ hmem).1 rfl
    refine ⟨g _, g _, g _, ?_⟩
    intro hN
    subst hN
    exact ⟨main_dump_fail _ _ w k hk hl hp ha hfail hok hd,
      main_dump_fail _ _ w k hk hl hp ha hfail hok hd,
      main_dump_fail _ _ w k hk hl hp ha hfail hok hd⟩
  · intro _ hc hw he hcl
    exact ⟨completes _ w N k hk hl hp ha hfail hok hc hw he hcl (Save_headlines_hex w),
      completes _ w N k hk hl hp ha hfail hok hc hw he hcl (more_top_stories_hex w),
      fun hdg => completes _ w N k hk hl hp ha hfail hok hc hw he hcl
        (cnn_scraper_hex w hdg)⟩

/-- C12 at concrete worlds: when the write of the dump fails the run of `Save_headlines.js`
returns `undefined`, and when the wait times out it completes with the extracted records. -/
theorem C12_debug_dump_witness :
    (Save_headlines.scrapeCNNHomepage dumpWriteFails 3 dumpWriteFails.init).1
      = (if dumpWriteFails.closeOk then .ok none else .error .close)
    ∧ completesWithRecords Save_headlines.scrapeCNNHomepage Save_headlines.extractHeadlines
        waitTimesOut 3 0 :=
  ⟨((C12_debug_dump dumpWriteFails 3 0 (by decide) rfl rfl rfl
      (fun j hj => absurd hj (Nat.not_lt_zero j)) rfl).1 (Or.inr rfl)).1.1,
    ((C12_debug_dump waitTimesOut 3 0 (by decide) rfl rfl rfl
      (fun j hj => absurd hj (Nat.not_lt_zero j)) rfl).2 rfl rfl rfl rfl rfl).1⟩

/-- C12 as stated fails: on the same page, with a navigation that succeeds at once, the run of
`Save_headlines.js` returns two records and writes them when the write of
`cnn_page_content.html` succeeds, and returns `undefined` and writes no CSV file when that
write fails. -/
theorem C12_counterexample :
    (Save_headlines.scrapeCNNHomepage (nominalWorld fixtureTopStories) defaultRetries
        (nominalWorld fixtureTopStories).init).1
      = .ok (some [⟨"Top Stories", "First", "https://www.cnn.com/a", none⟩,
          ⟨"Top Stories", "Third", "https://www.cnn.com/c", none⟩])
    ∧ (Save_headlines.scrapeCNNHomepage dumpWriteFails defaultRetries dumpWriteFails.init).1
      = .ok none
    ∧ ((Save_headlines.main (nominalWorld fixtureTopStories)
        (nominalWorld fixtureTopStories).init).2.trace.countP Event.isWriteRecords = 1)
    ∧ ((Save_headlines.main dumpWriteFails dumpWriteFails.init).2.trace.countP
        Event.isWriteRecords = 0) :=
  ⟨rfl, rfl, rfl, rfl⟩

/-! ## Lemmas on the calls of `writeRecords` -/

theorem push_noWrites (s : State) (w : World) (ev : Event) (extra : Nat) (hs : s.noWrites)
    (hev : ev.isWriteRecords = false) : (s.push w ev extra).noWrites := by
  intro e he
  rw [push_trace, List.mem_append, List.mem_singleton] at he
  rcases he with he | he
  · exact hs e he
  · rw [he]
    exact hev

theorem quiet_call (w : World) (ev : Event) (ok : Bool) (err : Error) (extra : Nat)
    (hev : ev.isWriteRecords = false) : (call w ev ok err extra).quiet :=
  fun s hs => push_noWrites s w ev extra hs hev

theorem quiet_pure {α : Type} (a : α) : (Run.pure a).quiet := fun _ hs => hs

theorem quiet_bind {α β : Type} (x : Run α) (f : α → Run β) (hx : x.quiet)
    (hf : ∀ a, (f a).quiet) : (x >>= f).quiet := by
  intro s hs
  rw [run_bind]
  unfold Run.bind
  have h1 := hx s hs
  rcases hxs : x s with ⟨r, s1⟩
  rw [hxs] at h1
  cases r with
  | error e => exact h1
  | ok a => exact hf a s1 h1

theorem quiet_tryCatch {α : Type} (x : Run α) (h : Error → Run α) (hx : x.quiet)
    (hh : ∀ e, (h e).quiet) : (Run.tryCatch x h).quiet := by
  intro s hs
  unfold Run.tryCatch
  have h1 := hx s hs
  rcases hxs : x s with ⟨r, s1⟩
  rw [hxs] at h1
  cases r with
  | error e => exact hh e s1 h1
  | ok a => exact h1

theorem quiet_tryFinally {α : Type} (x : Run α) (fin : Run Unit) (hx : x.quiet)
    (hf : fin.quiet) : (Run.tryFinally x fin).quiet := by
  intro s hs
  unfold Run.tryFinally
  have h1 := hx s hs
  rcases hxs : x s with ⟨r, s1⟩
  rw [hxs] at h1
  have h2 := hf s1 h1
  rcases hfs : fin s1 with ⟨r2, s2⟩
  rw [hfs] at h2
  cases r2 <;> simp only [hfs] <;> exact h2

theorem quiet_retryLoop (w : World) (N : Nat) :
    ∀ fuel i, (retryLoop w N fuel i).quiet := by
  intro fuel
  induction fuel with
  | zero => intro i s hs; exact hs
  | succ fuel ih =>
    intro i s hs
    by_cases hi : i < N
    · rw [retryLoop_succ w N fuel i s hi]
      have h1 : (pageGoto w s).2.noWrites := push_noWrites s w _ 0 hs rfl
      split
      · exact h1
      · split
        · exact h1
        · exact ih _ _ (push_noWrites _ w _ 5000 h1 rfl)
    · simp only [retryLoop, hi, ↓reduceIte]
      exact hs

theorem quiet_pageEvaluate (w : World) (pf : Document → Except Error (List HeadlineRecord)) :
    (pageEvaluate w pf).quiet := by
  intro s hs
  rw [pageEvaluate_snd]
  exact push_noWrites s w _ 0 hs rfl

theorem quiet_setupBrowser (w : World) : (setupBrowser w).quiet :=
  quiet_bind _ _ (quiet_call w _ _ _ _ rfl) (fun _ =>
    quiet_bind _ _ (quiet_call w _ _ _ _ rfl) (fun _ => quiet_call w _ _ _ _ rfl))

theorem quiet_tryBlock (ex : World → Run (List HeadlineRecord)) (w : World) (N : Nat)
    (hex : (ex w).quiet) : (tryBlock ex w N).quiet :=
  quiet_bind _ _ (quiet_call w _ _ _ _ rfl) (fun _ =>
    quiet_bind _ _ (quiet_retryLoop w N N 0) (fun _ =>
      quiet_bind _ _ (quiet_call w _ _ _ _ rfl) (fun _ =>
        quiet_bind _ _ (quiet_call w _ _ _ _ rfl) (fun _ =>
          quiet_bind _ _
            (quiet_tryCatch _ _ (quiet_call w _ _ _ _ rfl) (fun _ => quiet_pure _))
            (fun _ => quiet_bind _ _ hex (fun _ => quiet_pure _))))))

theorem quiet_scrape (ex : World → Run (List HeadlineRecord)) (w : World) (N : Nat)
    (hex : (ex w).quiet) : (scrapeCNNHomepageWith ex w N).quiet :=
  quiet_bind _ _ (quiet_setupBrowser w) (fun _ =>
    quiet_tryFinally _ _
      (quiet_tryCatch _ _ (quiet_tryBlock ex w N hex) (fun _ => quiet_pure _))
      (quiet_call w _ _ _ _ rfl))

theorem quiet_copy_scrape (w : World) : (copy.scrapeCNNHomepage w).quiet :=
  quiet_bind _ _
    (quiet_bind _ _ (quiet_call w _ _ _ _ rfl) (fun _ => quiet_call w _ _ _ _ rfl))
    (fun _ => quiet_tryFinally _ _
      (quiet_tryCatch _ _
        (quiet_bind _ _ (quiet_call w _ _ _ _ rfl) (fun _ =>
          quiet_bind _ _ (fun s hs => push_noWrites s w _ 0 hs rfl) (fun _ =>
            quiet_bind _ _ (quiet_pageEvaluate w _) (fun _ => quiet_pure _))))
        (fun _ => quiet_pure _))
      (quiet_call w _ _ _ _ rfl))

theorem init_noWrites (w : World) : w.init.noWrites := by
  intro ev hev
  simp [World.init] at hev

theorem filesAfter_noWrites (w : World) (trace : List Event)
    (h : ∀ ev ∈ trace, ev.isWriteRecords = false) (files : String → Option CsvFile) :
    filesAfter w files trace = files := by
  unfold filesAfter
  induction trace generalizing files with
  | nil => rfl
  | cons ev rest ih =>
    rw [List.foldl_cons]
    have hev := h ev (List.mem_cons_self _ _)
    have : writeEffect w files ev = files := by
      cases ev <;> first | rfl | (simp [Event.isWriteRecords] at hev)
    rw [this]
    exact ih (fun e he => h e (List.mem_cons_of_mem _ he)) files

theorem mainWith_fst (sc : World → Run (Option (List HeadlineRecord)))
    (header : List String) (w : World) (s : State) :
    (mainWith sc (storeDataInCSVWith header) w s).1 = .ok () := by
  unfold mainWith Run.tryCatch
  rw [run_bind]
  unfold Run.bind
  rcases hx : sc w s with ⟨r, s1⟩
  cases r with
  | error e => rfl
  | ok o =>
    cases o with
    | none => rfl
    | some rs =>
      by_cases hl : rs.length > 0
      · cases hw : w.writeRecordsOk
          <;> simp [hl, storeDataInCSVWith, Run.tryCatch, call, hw, Run.pure]
      · simp [hl, Run.pure]

theorem mainWith_some (sc : World → Run (Option (List HeadlineRecord)))
    (header : List String) (w : World) (s : State) (rs : List HeadlineRecord)
    (h : (sc w s).1 = .ok (some rs)) (hne : rs ≠ []) :
    (mainWith sc (storeDataInCSVWith header) w s).2.trace
      = (sc w s).2.trace ++ [.writeRecords "cnn_headlines.csv" header rs] := by
  have hl : rs.length > 0 := List.length_pos.mpr hne
  unfold mainWith Run.tryCatch
  rw [run_bind]
  unfold Run.bind
  rcases hx : sc w s with ⟨r, s1⟩
  rw [hx] at h
  simp only at h
  subst h
  cases hw : w.writeRecordsOk
    <;> simp [hl, storeDataInCSVWith, Run.tryCatch, call, hw, Run.pure, State.push]

/-- When the run of `copy.js` returns records, they are the ones `extractHeadlines`
returned. -/
theorem copy_scrape_some (w : World) (rs : List HeadlineRecord)
    (h : (copy.scrapeCNNHomepage w w.init).1 = .ok (some rs)) :
    ∃ s, (copy.extractHeadlines w s).1 = .ok rs := by
  cases hl : w.launchOk
  · simp [copy.scrapeCNNHomepage, copy.setupBrowser, run_bind, Run.bind, call, hl] at h
  cases hp : w.newPageOk
  · simp [copy.scrapeCNNHomepage, copy.setupBrowser, run_bind, Run.bind, call, hl, hp] at h
  rw [(copy_scrape_run w hl hp).1] at h
  cases hcl : w.closeOk
  · rw [hcl] at h
    cases h
  rw [hcl, if_pos rfl] at h
  rcases ht : (copy.tryBlock w (copy.setupBrowser w w.init).2).1 with e | o
  · rw [ht] at h
    cases h
  rw [ht] at h
  injection h with h
  subst h
  unfold copy.tryBlock at ht
  rw [bind_ok _ _ _ ((copy.setupBrowser w w.init).2.push w
    (.setDefaultNavigationTimeout 60000) 0) () (by rfl)] at ht
  generalize (copy.setupBrowser w w.init).2.push w (.setDefaultNavigationTimeout 60000) 0
    = s0 at ht
  cases hg : w.gotoOk s0.gotoCalls
  · rw [bind_error _ _ _ _ _ (by exact call_error _ _ _ _ _ _ hg)] at ht
    cases ht
  · rw [bind_ok _ _ _ _ () (by exact call_ok _ _ _ _ _ _ hg), run_bind] at ht
    unfold Run.bind at ht
    refine ⟨s0.push w (.goto "https://www.cnn.com/" "networkidle2" 60000) 0, ?_⟩
    rcases hx : copy.extractHeadlines w
      (s0.push w (.goto "https://www.cnn.com/" "networkidle2" 60000) 0) with ⟨r, s2⟩
    rw [hx] at ht
    cases r with
    | error e => cases ht
    | ok rs' =>
      injection ht with ht
      injection ht with ht
      rw [ht]

theorem fields_undated (r : HeadlineRecord) (h : r.date = none) :
    r.fields = ["section", "headline", "link"] := by
  simp [HeadlineRecord.fields, h]

theorem fields_dated (r : HeadlineRecord) (cd : String) (h : r.date = some cd) :
    r.fields = ["section", "headline", "link", "date"] := by
  simp [HeadlineRecord.fields, h]

/-- What `main` does with the records, for a `scrape` that never calls `writeRecords` and
returns records whose fields are the header ids. -/
theorem writesCsv_of (sc : World → Run (Option (List HeadlineRecord)))
    (header : List String) (w : World) (hq : (sc w).quiet)
    (hf : ∀ rs, (sc w w.init).1 = .ok (some rs) → ∀ r ∈ rs, r.fields = header) :
    writesCsv (mainWith sc (storeDataInCSVWith header)) sc header w := by
  intro rs hrs
  have hquiet : ∀ ev ∈ (sc w w.init).2.trace, ev.isWriteRecords = false :=
    hq w.init (init_noWrites w)
  refine ⟨mainWith_fst sc header w w.init, hf rs hrs, ?_, ?_⟩
  · intro hne
    have ht := mainWith_some sc header w w.init rs hrs hne
    refine ⟨ht, ?_⟩
    intro hw files
    rw [ht]
    unfold filesAfter
    rw [List.foldl_append]
    have := filesAfter_noWrites w _ hquiet files
    unfold filesAfter at this
    rw [this]
    simp [writeEffect, hw]
  · intro he
    have hm : (mainWith sc (storeDataInCSVWith header) w w.init).2 = (sc w w.init).2 := by
      apply mainWith_no_records
      intro rs' hrs'
      rw [hrs] at hrs'
      injection hrs' with hrs'
      injection hrs' with hrs'
      rw [← hrs', he]
    rw [hm]
    exact ⟨rfl, fun files => filesAfter_noWrites w _ hquiet files⟩

/-! ## C11: the CSV file -/

/-- C11 (as amended): in each of the four variants, for every run in which `scrapeCNNHomepage`
returns records (the extraction completed and the browser was closed), `main` returns normally
and the header ids `section`, `headline`, `link` (and `date` in `more_top_stories.js` and
`cnn_scraper.js`), in that order, are exactly the fields of every record; when the records are
not empty, `main` calls `writeRecords` once, with the whole sequence, for `cnn_headlines.csv`,
and a successful write replaces whatever file was at that path; when the result is empty,
`main` calls no `writeRecords` and leaves every file as it was. -/
theorem C11_csv_output (w : World) :
    writesCsv Save_headlines.main (fun w => Save_headlines.scrapeCNNHomepage w defaultRetries)
      ["section", "headline", "link"] w
    ∧ writesCsv copy.main copy.scrapeCNNHomepage ["section", "headline", "link"] w
    ∧ writesCsv more_top_stories.main
      (fun w => more_top_stories.scrapeCNNHomepage w defaultRetries)
      ["section", "headline", "link", "date"] w
    ∧ writesCsv cnn_scraper.main (fun w => cnn_scraper.scrapeCNNHomepage w defaultRetries)
      ["section", "headline", "link", "date"] w := by
  refine ⟨?_, ?_, ?_, ?_⟩
  · refine writesCsv_of _ _ w (quiet_scrape _ w _ (quiet_pageEvaluate w _)) ?_
    intro rs hrs r hr
    obtain ⟨s, _, hs⟩ := scrape_some _ w _ rs hrs
    exact fields_undated r
      (Save_headlines_pageFunction_mem _ rs (pageEvaluate_ok _ _ _ _ hs) r hr).2
  · refine writesCsv_of _ _ w (quiet_copy_scrape w) ?_
    intro rs hrs r hr
    obtain ⟨s, hs⟩ := copy_scrape_some w rs hrs
    exact fields_undated r (copy_pageFunction_mem _ rs (pageEvaluate_ok _ _ _ _ hs) r hr).2
  · refine writesCsv_of _ _ w
      (quiet_scrape _ w _ (fun s hs => quiet_pageEvaluate w _ s hs)) ?_
    intro rs hrs r hr
    obtain ⟨s, _, hs⟩ := scrape_some _ w _ rs hrs
    exact fields_dated r _
      (more_top_stories_pageFunction_mem _ _ rs (pageEvaluate_ok _ _ _ _ hs) r hr).2
  · refine writesCsv_of _ _ w
      (quiet_scrape _ w _ (fun s hs => quiet_pageEvaluate w _ s hs)) ?_
    intro rs hrs r hr
    obtain ⟨s, _, hs⟩ := scrape_some _ w _ rs hrs
    exact fields_dated r _
      (cnn_scraper_pageFunction_mem _ _ rs (pageEvaluate_ok _ _ _ _ hs) r hr).2

/-- C11 at a concrete world: the run of `Save_headlines.js` on the top-stories fixture replaces
the file found at `cnn_headlines.csv` by the header and the two records. -/
theorem C11_csv_output_witness :
    filesAfter (nominalWorld fixtureTopStories) staleFiles
        (Save_headlines.main (nominalWorld fixtureTopStories)
          (nominalWorld fixtureTopStories).init).2.trace "cnn_headlines.csv"
      = some ⟨["section", "headline", "link"],
          [⟨"Top Stories", "First", "https://www.cnn.com/a", none⟩,
            ⟨"Top Stories", "Third", "https://www.cnn.com/c", none⟩]⟩ :=
  (((C11_csv_output (nominalWorld fixtureTopStories)).1
    [⟨"Top Stories", "First", "https://www.cnn.com/a", none⟩,
      ⟨"Top Stories", "Third", "https://www.cnn.com/c", none⟩] rfl).2.2.1
    (by simp)).2 rfl staleFiles

/-- C11 as stated fails twice. On a page without cards the extraction completes with an empty
sequence, and `main` calls no `writeRecords`: the file already at `cnn_headlines.csv` stays as
it was. And when `browser.close()` fails after the extraction completed,
`scrapeCNNHomepage` raises that error and `main` writes nothing. -/
theorem C11_counterexample :
    (Save_headlines.scrapeCNNHomepage (nominalWorld fixtureEmpty) defaultRetries
        (nominalWorld fixtureEmpty).init).1 = .ok (some [])
    ∧ (Save_headlines.main (nominalWorld fixtureEmpty)
        (nominalWorld fixtureEmpty).init).2.trace.countP Event.isWriteRecords = 0
    ∧ filesAfter (nominalWorld fixtureEmpty) staleFiles
        (Save_headlines.main (nominalWorld fixtureEmpty)
          (nominalWorld fixtureEmpty).init).2.trace "cnn_headlines.csv"
      = staleFiles "cnn_headlines.csv"
    ∧ (Save_headlines.scrapeCNNHomepage closeFails defaultRetries closeFails.init).1
      = .error .close
    ∧ (Save_headlines.scrapeCNNHomepage closeFails defaultRetries
        closeFails.init).2.trace.count Event.evaluate = 1
    ∧ (Save_headlines.main closeFails closeFails.init).2.trace.countP Event.isWriteRecords
      = 0 :=
  ⟨rfl, rfl, rfl, rfl, rfl, rfl⟩

end Scraper
